import Mathlib

/-!
# Entry derivation of spire-controller-manager

A shallow embedding of `pkg/spireentry/entries.go` (the function `renderPodEntry`
and its helpers) together with the few library primitives it calls.

Conventions of the embedding.

* Go strings are Lean `String`s (valid UTF-8).  Byte-level primitives of Go
  (`len`, the `<` of `sort.Strings`) are computed on the UTF-8 encoding, see
  `strings.bytes`.
* A Go `error` is its message (`err.Error()`), so a function returning
  `(T, error)` becomes `Except String T`, and `fmt.Errorf("ctx: %w", err)` is
  string concatenation.
* The map `dnsNamesSet` that `renderPodEntry` shares with its helpers is passed
  and returned explicitly, as the list of its keys.
* A compiled `*template.Template` is the function that `Execute` computes on
  the template data.
* `%q` is `strconv.Quote`.  Its Unicode tables for code points above U+00FF are
  not modelled; they are the parameter `tbl` of every function that formats an
  error message with `%q`.
* `spiffeid` is the external go-spiffe v2 package; its parser and path
  validation are modelled after the library's behaviour.
-/

set_option autoImplicit false

/-! ## Go string primitives -/

namespace strings

/-- UTF-8 encoding of one code point, as byte values. -/
def utf8Bytes (c : Char) : List Nat :=
  let v := c.toNat
  if v < 0x80 then [v]
  else if v < 0x800 then [0xC0 + v / 64, 0x80 + v % 64]
  else if v < 0x10000 then [0xE0 + v / 4096, 0x80 + (v / 64) % 64, 0x80 + v % 64]
  else [0xF0 + v / 262144, 0x80 + (v / 4096) % 64, 0x80 + (v / 64) % 64, 0x80 + v % 64]

/-- UTF-8 encoding of a sequence of code points. -/
def utf8 : List Char → List Nat
  | [] => []
  | c :: cs => utf8Bytes c ++ utf8 cs

/-- The bytes of a Go string. -/
def bytes (s : String) : List Nat := utf8 s.data

/-- Go `len(s)`: the number of bytes of `s`. -/
def len (s : String) : Nat := (bytes s).length

/-- Lexicographic `<` on byte sequences (what Go's `a < b` on strings computes). -/
def bytesLess : List Nat → List Nat → Bool
  | [], [] => false
  | [], _ :: _ => true
  | _ :: _, [] => false
  | a :: as, b :: bs => if a < b then true else if b < a then false else bytesLess as bs

/-- Go `a < b` on strings. -/
def Less (a b : String) : Bool := bytesLess (bytes a) (bytes b)

/-- Position of the first occurrence of `sep`: the characters before it and the
characters after it, or `none` when `sep` does not occur. -/
def cutFirst (sep : Char) : List Char → Option (List Char × List Char)
  | [] => none
  | c :: cs =>
    if c = sep then some ([], cs)
    else match cutFirst sep cs with
      | none => none
      | some (a, b) => some (c :: a, b)

/-- Go `strings.SplitN(s, sep, 2)` for a one-character (ASCII) separator: the
result has one element (`s` itself, second component `none`) when `sep` does not
occur in `s`, and otherwise two elements, the text before the first `sep` and
the whole text after it. -/
def SplitN2 (s : String) (sep : Char) : String × Option String :=
  match cutFirst sep s.data with
  | none => (s, none)
  | some (a, b) => (⟨a⟩, some ⟨b⟩)

end strings

/-! ## `sort.Strings` -/

namespace sort

/-- The order `sort.Strings` sorts by: `a` may stand before `b` when `b < a`
does not hold. -/
def StringLE (a b : String) : Prop := strings.Less b a = false

instance StringLE.decidable : DecidableRel StringLE :=
  fun a b => inferInstanceAs (Decidable (strings.Less b a = false))

/-- Go `sort.Strings`: the slice rearranged into ascending order of Go's `<` on
strings.  The library sorts in place with an unspecified algorithm; insertion
sort stands for it. -/
def Strings (x : List String) : List String := List.insertionSort StringLE x

end sort

/-! ## `strconv.Quote`, the `%q` verb of `fmt` -/

namespace strconv

/-- The backslash character. -/
def backslash : Char := Char.ofNat 92

/-- The double-quote character. -/
def dquote : Char := Char.ofNat 34

/-- Lower-case hexadecimal digit of `n % 16`. -/
def hexDigit (n : Nat) : Char := "0123456789abcdef".data.getD (n % 16) '0'

/-- Go `strconv.IsPrint`.  Up to U+00FF the library decides by the ranges below;
above it consults its Unicode tables, which are the parameter `tbl`. -/
def IsPrint (tbl : Char → Bool) (r : Char) : Bool :=
  let v := r.toNat
  if v ≤ 0xFF then
    if 0x20 ≤ v ∧ v ≤ 0x7E then true
    else if 0xA1 ≤ v then v != 0xAD
    else false
  else tbl r

/-- What `strconv.Quote` writes for one code point (`appendEscapedRune`). -/
def escapeRune (tbl : Char → Bool) (r : Char) : List Char :=
  let v := r.toNat
  if v = 34 ∨ v = 92 then [backslash, r]
  else if IsPrint tbl r then [r]
  else if v = 7 then [backslash, 'a']
  else if v = 8 then [backslash, 'b']
  else if v = 12 then [backslash, 'f']
  else if v = 10 then [backslash, 'n']
  else if v = 13 then [backslash, 'r']
  else if v = 9 then [backslash, 't']
  else if v = 11 then [backslash, 'v']
  else if v < 0x20 ∨ v = 0x7F then [backslash, 'x', hexDigit (v / 16), hexDigit v]
  else if v < 0x10000 then
    [backslash, 'u', hexDigit (v / 4096), hexDigit (v / 256), hexDigit (v / 16), hexDigit v]
  else
    [backslash, 'U', hexDigit (v / 268435456), hexDigit (v / 16777216), hexDigit (v / 1048576),
      hexDigit (v / 65536), hexDigit (v / 4096), hexDigit (v / 256), hexDigit (v / 16), hexDigit v]

/-- The escaped body of a quoted string. -/
def escapeRunes (tbl : Char → Bool) : List Char → List Char
  | [] => []
  | r :: rs => escapeRune tbl r ++ escapeRunes tbl rs

/-- Go `strconv.Quote(s)`, which `%q` prints for a string or a `Stringer`. -/
def Quote (tbl : Char → Bool) (s : String) : String :=
  ⟨dquote :: (escapeRunes tbl s.data ++ [dquote])⟩

end strconv

/-! ## The `spiffeid` package of go-spiffe v2 (external library) -/

namespace spiffeid

/-- A trust domain; the zero value has the empty name. -/
structure TrustDomain where
  name : String
  deriving DecidableEq, Repr

/-- Go `TrustDomain.String`. -/
def TrustDomain.String (td : TrustDomain) : String := td.name

/-- Go `TrustDomain.IsZero`. -/
def TrustDomain.IsZero (td : TrustDomain) : Bool := td.name == ""

/-- A SPIFFE ID, kept as its trust domain and its path (the library keeps the
whole string and the index where the path starts). -/
structure ID where
  td : TrustDomain
  path : String
  deriving DecidableEq, Repr

/-- Go `ID.TrustDomain`. -/
def ID.TrustDomain (id : ID) : TrustDomain := id.td

/-- Go `ID.String`: the zero ID prints as the empty string. -/
def ID.String (id : ID) : String :=
  if id.td.IsZero then "" else "spiffe://" ++ id.td.name ++ id.path

def errBadTrustDomainChar : String :=
  "trust domain characters are limited to lowercase letters, numbers, dots, dashes, and underscores"
def errBadPathSegmentChar : String :=
  "path segment characters are limited to letters, numbers, dots, dashes, and underscores"
def errDotSegment : String := "path cannot contain dot segments"
def errNoLeadingSlash : String := "path must have a leading slash"
def errEmpty : String := "cannot be empty"
def errEmptySegment : String := "path cannot contain empty segments"
def errMissingTrustDomain : String := "trust domain is missing"
def errTrailingSlash : String := "path cannot have a trailing slash"
def errWrongScheme : String := "scheme is missing or invalid"

/-- Go `isValidTrustDomainChar`: lower-case letters, digits, `-`, `.`, `_`. -/
def isValidTrustDomainChar (c : Char) : Bool :=
  c.isLower || c.isDigit || c == '-' || c == '.' || c == '_'

/-- Go `isValidPathSegmentChar`: letters, digits, `-`, `.`, `_`. -/
def isValidPathSegmentChar (c : Char) : Bool :=
  c.isLower || c.isUpper || c.isDigit || c == '-' || c == '.' || c == '_'

/-- The scan of `ValidatePath` after the leading slash check.  `seg` is the
segment read since the last slash, `none` before the first slash is read. -/
def validateSegments : Option (List Char) → List Char → Except String Unit
  | seg, [] =>
    if seg = some [] then .error errTrailingSlash
    else if seg = some ['.'] ∨ seg = some ['.', '.'] then .error errDotSegment
    else .ok ()
  | seg, c :: cs =>
    if c = '/' then
      if seg = some [] then .error errEmptySegment
      else if seg = some ['.'] ∨ seg = some ['.', '.'] then .error errDotSegment
      else validateSegments (some []) cs
    else if !isValidPathSegmentChar c then .error errBadPathSegmentChar
    else validateSegments (some (seg.getD [] ++ [c])) cs

/-- Go `spiffeid.ValidatePath`. -/
def ValidatePath (path : String) : Except String Unit :=
  match path.data with
  | [] => .ok ()
  | c :: cs => if c ≠ '/' then .error errNoLeadingSlash else validateSegments none (c :: cs)

/-- Go `makeID`. -/
def makeID (td : TrustDomain) (path : String) : Except String ID :=
  if td.IsZero then .error "trust domain is empty" else .ok { td := td, path := path }

/-- Go `spiffeid.FromPathf(td, format, args...)`, applied to the path that
`fmt.Sprintf(format, args...)` produced. -/
def FromPathf (td : TrustDomain) (path : String) : Except String ID :=
  match ValidatePath path with
  | .error err => .error err
  | .ok () => makeID td path

/-- The loop of `FromString` over the trust domain: the characters up to the
first slash (each checked), and the rest. -/
def scanTrustDomain : List Char → Except String (List Char × List Char)
  | [] => .ok ([], [])
  | c :: cs =>
    if c = '/' then .ok ([], c :: cs)
    else if !isValidTrustDomainChar c then .error errBadTrustDomainChar
    else match scanTrustDomain cs with
      | .error err => .error err
      | .ok (td, rest) => .ok (c :: td, rest)

/-- Go `spiffeid.FromString`. -/
def FromString (id : String) : Except String ID :=
  if id = "" then .error errEmpty
  else if !("spiffe://".data.isPrefixOf id.data) then .error errWrongScheme
  else match scanTrustDomain (id.data.drop 9) with
    | .error err => .error err
    | .ok (td, rest) =>
      if td = [] then .error errMissingTrustDomain
      else match ValidatePath ⟨rest⟩ with
        | .error err => .error err
        | .ok () => .ok { td := ⟨⟨td⟩⟩, path := ⟨rest⟩ }

end spiffeid

/-! ## Kubernetes objects (the fields the derivation and its templates read) -/

namespace metav1

/-- Go `metav1.ObjectMeta`. -/
structure ObjectMeta where
  Name : String
  Namespace : String
  UID : String
  Labels : List (String × String)
  Annotations : List (String × String)
  deriving DecidableEq, Repr

end metav1

namespace corev1

/-- Go `corev1.PodSpec`. -/
structure PodSpec where
  ServiceAccountName : String
  NodeName : String
  deriving DecidableEq, Repr

/-- Go `corev1.NodeSpec`. -/
structure NodeSpec where
  PodCIDR : String
  ProviderID : String
  deriving DecidableEq, Repr

/-- Go `corev1.Pod`. -/
structure Pod where
  ObjectMeta : metav1.ObjectMeta
  Spec : PodSpec
  deriving DecidableEq, Repr

/-- Go `corev1.Node`. -/
structure Node where
  ObjectMeta : metav1.ObjectMeta
  Spec : NodeSpec
  deriving DecidableEq, Repr

/-- Go `corev1.ObjectReference`. -/
structure ObjectReference where
  Kind : String
  Namespace : String
  Name : String
  UID : String
  deriving DecidableEq, Repr

/-- Go `corev1.EndpointAddress`; `TargetRef` is a pointer and may be nil. -/
structure EndpointAddress where
  IP : String
  TargetRef : Option ObjectReference
  deriving DecidableEq, Repr

/-- Go `corev1.EndpointSubset`. -/
structure EndpointSubset where
  Addresses : List EndpointAddress
  NotReadyAddresses : List EndpointAddress
  deriving DecidableEq, Repr

/-- Go `corev1.Endpoints`. -/
structure Endpoints where
  ObjectMeta : metav1.ObjectMeta
  Subsets : List EndpointSubset
  deriving DecidableEq, Repr

/-- Go `corev1.EndpointsList`. -/
structure EndpointsList where
  Items : List Endpoints
  deriving DecidableEq, Repr

end corev1

/-! ## `pkg/spireapi` and `api/v1alpha1` types -/

namespace spireapi

/-- Go `spireapi.Selector` (the field `Type` is spelled `Type_`). -/
structure Selector where
  Type_ : String
  Value : String
  deriving DecidableEq, Repr

/-- Go `spireapi.Entry`, with the fields `renderPodEntry` fills in. -/
structure Entry where
  SPIFFEID : spiffeid.ID
  ParentID : spiffeid.ID
  Selectors : List Selector
  X509SVIDTTL : Int
  FederatesWith : List spiffeid.TrustDomain
  DNSNames : List String
  Admin : Bool
  Downstream : Bool
  deriving DecidableEq, Repr

end spireapi

namespace spireentry

/-- Go `templateData` (entries.go, lines 89-97). -/
structure templateData where
  TrustDomain : String
  ClusterName : String
  ClusterDomain : String
  PodMeta : metav1.ObjectMeta
  PodSpec : corev1.PodSpec
  NodeMeta : metav1.ObjectMeta
  NodeSpec : corev1.NodeSpec
  deriving DecidableEq, Repr

end spireentry

namespace template

/-- A compiled `*template.Template` of `text/template`: what `Execute` writes
for the given data, or the error it returns. -/
structure Template where
  Execute : spireentry.templateData → Except String String

end template

namespace spirev1alpha1

/-- Go `spirev1alpha1.ParsedClusterSPIFFEIDSpec`, with the fields
`renderPodEntry` reads. -/
structure ParsedClusterSPIFFEIDSpec where
  SPIFFEIDTemplate : template.Template
  DNSNameTemplates : List template.Template
  WorkloadSelectorTemplates : List template.Template
  TTL : Int
  FederatesWith : List spiffeid.TrustDomain
  Admin : Bool
  Downstream : Bool

end spirev1alpha1

/-! ## `pkg/spireentry/entries.go` -/

namespace spireentry

/-- Go `appendIfNotExists` (lines 192-199).  Returns the slice and the updated
key set of the map. -/
def appendIfNotExists (slice : List String) (sliceSet : List String) (item : String) :
    List String × List String :=
  if item ∈ sliceSet then (slice, sliceSet)
  else (slice ++ [item], item :: sliceSet)

/-- The body of the loop of `addServiceDNSNames` for one endpoint (lines 116-121). -/
def addEndpointDNSNames (dnsNames : List String) (dnsNamesSet : List String)
    (endpoint : corev1.Endpoints) (clusterDomain : String) : List String × List String :=
  let r1 := appendIfNotExists dnsNames dnsNamesSet endpoint.ObjectMeta.Name
  let r2 := appendIfNotExists r1.1 r1.2
    (endpoint.ObjectMeta.Name ++ "." ++ endpoint.ObjectMeta.Namespace)
  let r3 := appendIfNotExists r2.1 r2.2
    (endpoint.ObjectMeta.Name ++ "." ++ endpoint.ObjectMeta.Namespace ++ ".svc")
  if clusterDomain ≠ "" then
    appendIfNotExists r3.1 r3.2
      (endpoint.ObjectMeta.Name ++ "." ++ endpoint.ObjectMeta.Namespace ++ ".svc." ++ clusterDomain)
  else r3

/-- The loop of `addServiceDNSNames` over `endpointsList.Items`. -/
def addServiceDNSNamesLoop (dnsNames : List String) (dnsNamesSet : List String)
    (clusterDomain : String) : List corev1.Endpoints → List String × List String
  | [] => (dnsNames, dnsNamesSet)
  | endpoint :: rest =>
    let r := addEndpointDNSNames dnsNames dnsNamesSet endpoint clusterDomain
    addServiceDNSNamesLoop r.1 r.2 clusterDomain rest

/-- Go `addServiceDNSNames` (lines 114-125). -/
def addServiceDNSNames (dnsNames : List String) (dnsNamesSet : List String)
    (endpointsList : corev1.EndpointsList) (clusterDomain : String) : List String × List String :=
  addServiceDNSNamesLoop dnsNames dnsNamesSet clusterDomain endpointsList.Items

/-- Go `renderTemplate` (lines 163-169). -/
def renderTemplate (tmpl : template.Template) (data : templateData) : Except String String :=
  match tmpl.Execute data with
  | .error err => .error ("failed to execute template: " ++ err)
  | .ok out => .ok out

/-- Go `validateDNSName` (lines 171-174): the body is a TODO and returns nil. -/
def validateDNSName (_dnsName : String) : Except String Unit :=
  .ok ()

/-- Go `renderDNSName` (lines 140-149). -/
def renderDNSName (tbl : Char → Bool) (tmpl : template.Template) (data : templateData) :
    Except String String :=
  match renderTemplate tmpl data with
  | .error err => .error err
  | .ok rendered =>
    match validateDNSName rendered with
    | .error err => .error ("invalid DNS name " ++ strconv.Quote tbl rendered ++ ": " ++ err)
    | .ok () => .ok rendered

/-- Go `addRenderedDNSNames` (lines 127-138). -/
def addRenderedDNSNames (tbl : Char → Bool) (dnsNames : List String) (dnsNamesSet : List String)
    (data : templateData) : List template.Template → Except String (List String × List String)
  | [] => .ok (dnsNames, dnsNamesSet)
  | dnsNameTemplate :: rest =>
    match renderDNSName tbl dnsNameTemplate data with
    | .error err => .error ("failed to render DNS name: " ++ err)
    | .ok dnsName =>
      let r := appendIfNotExists dnsNames dnsNamesSet dnsName
      addRenderedDNSNames tbl r.1 r.2 data rest

/-- Go `parseSelector` (lines 176-190). -/
def parseSelector (selector : String) : Except String spireapi.Selector :=
  let parts := strings.SplitN2 selector ':'
  match parts.2 with
  | none => .error "expected at least one colon separate the type from the value"
  | some parts1 =>
    if strings.len parts.1 = 0 then .error "type cannot be empty"
    else if strings.len parts1 = 0 then .error "value cannot be empty"
    else .ok { Type_ := parts.1, Value := parts1 }

/-- Go `renderSelector` (lines 151-161). -/
def renderSelector (tbl : Char → Bool) (tmpl : template.Template) (data : templateData) :
    Except String spireapi.Selector :=
  match renderTemplate tmpl data with
  | .error err => .error err
  | .ok rendered =>
    match parseSelector rendered with
    | .error err =>
      .error ("invalid workload selector " ++ strconv.Quote tbl rendered ++ ": " ++ err)
    | .ok selector => .ok selector

/-- Go `renderSPIFFEID` (lines 99-112). -/
def renderSPIFFEID (tbl : Char → Bool) (tmpl : template.Template) (data : templateData)
    (expectTD : spiffeid.TrustDomain) : Except String spiffeid.ID :=
  match renderTemplate tmpl data with
  | .error err => .error err
  | .ok rendered =>
    match spiffeid.FromString rendered with
    | .error err => .error ("invalid SPIFFE ID: " ++ err)
    | .ok id =>
      if id.TrustDomain ≠ expectTD then
        .error ("invalid SPIFFE ID: expected trust domain " ++ strconv.Quote tbl expectTD.String
          ++ " but got " ++ strconv.Quote tbl id.TrustDomain.String)
      else .ok id

/-- The loop of `renderPodEntry` over `spec.WorkloadSelectorTemplates`
(lines 69-75), with its `return nil, fmt.Errorf(...)` on a failing template. -/
def renderWorkloadSelectors (tbl : Char → Bool) (selectors : List spireapi.Selector)
    (data : templateData) : List template.Template → Except String (List spireapi.Selector)
  | [] => .ok selectors
  | workloadSelectorTemplate :: rest =>
    match renderSelector tbl workloadSelectorTemplate data with
    | .error err => .error ("failed to render workload selector: " ++ err)
    | .ok selector => renderWorkloadSelectors tbl (selectors ++ [selector]) data rest

/-- The template data `renderPodEntry` builds (lines 45-53). -/
def newTemplateData (node : corev1.Node) (pod : corev1.Pod) (trustDomain : spiffeid.TrustDomain)
    (clusterName clusterDomain : String) : templateData :=
  { TrustDomain := trustDomain.String
    ClusterName := clusterName
    ClusterDomain := clusterDomain
    PodMeta := pod.ObjectMeta
    PodSpec := pod.Spec
    NodeMeta := node.ObjectMeta
    NodeSpec := node.Spec }

/-- Go `renderPodEntry` (lines 34-87). -/
def renderPodEntry (tbl : Char → Bool) (spec : spirev1alpha1.ParsedClusterSPIFFEIDSpec)
    (node : corev1.Node) (pod : corev1.Pod) (endpointsList : corev1.EndpointsList)
    (trustDomain : spiffeid.TrustDomain) (clusterName clusterDomain : String) :
    Except String spireapi.Entry :=
  let selectors : List spireapi.Selector :=
    [{ Type_ := "k8s", Value := "pod-uid:" ++ pod.ObjectMeta.UID }]
  match spiffeid.FromPathf trustDomain
      ("/spire/agent/k8s_psat/" ++ clusterName ++ "/" ++ node.ObjectMeta.UID) with
  | .error err => .error ("failed to render parent ID: " ++ err)
  | .ok parentID =>
    let data := newTemplateData node pod trustDomain clusterName clusterDomain
    match renderSPIFFEID tbl spec.SPIFFEIDTemplate data trustDomain with
    | .error err => .error ("failed to render SPIFFE ID: " ++ err)
    | .ok spiffeID =>
      let r := addServiceDNSNames [] [] endpointsList clusterDomain
      match addRenderedDNSNames tbl r.1 r.2 data spec.DNSNameTemplates with
      | .error err => .error err
      | .ok r =>
        let dnsNames := sort.Strings r.1
        match renderWorkloadSelectors tbl selectors data spec.WorkloadSelectorTemplates with
        | .error err => .error err
        | .ok selectors =>
          .ok { SPIFFEID := spiffeID
                ParentID := parentID
                Selectors := selectors
                X509SVIDTTL := spec.TTL
                FederatesWith := spec.FederatesWith
                DNSNames := dnsNames
                Admin := spec.Admin
                Downstream := spec.Downstream }

/-! ### Predicates used to state the properties -/

/-- The slice and the map of `renderPodEntry` agree: the slice has no repeated
element and the keys of the map are the elements of the slice. -/
def SetInv (slice sliceSet : List String) : Prop :=
  slice.Nodup ∧ ∀ x, x ∈ sliceSet ↔ x ∈ slice

/-- The names `addServiceDNSNames` proposes for one endpoint. -/
def IsServiceDNSName (endpoint : corev1.Endpoints) (clusterDomain s : String) : Prop :=
  s = endpoint.ObjectMeta.Name
  ∨ s = endpoint.ObjectMeta.Name ++ "." ++ endpoint.ObjectMeta.Namespace
  ∨ s = endpoint.ObjectMeta.Name ++ "." ++ endpoint.ObjectMeta.Namespace ++ ".svc"
  ∨ (clusterDomain ≠ "" ∧
      s = endpoint.ObjectMeta.Name ++ "." ++ endpoint.ObjectMeta.Namespace ++ ".svc." ++
        clusterDomain)

/-- The labels of a DNS name: the substrings between its dots. -/
def dnsLabels : List Char → List (List Char)
  | [] => [[]]
  | c :: cs =>
    if c = '.' then [] :: dnsLabels cs
    else match dnsLabels cs with
      | [] => [[c]]
      | label :: rest => (c :: label) :: rest

/-- DNS-label validation as the specification words it (section 4.4): a label
consists of alphanumeric characters and hyphens, does not start or end with a
hyphen, and has at most 63 characters. -/
def specValidDNSLabel (label : List Char) : Bool :=
  label.all (fun c => c.isAlphanum || c == '-')
    && label.head? != some '-'
    && label.getLast? != some '-'
    && decide (label.length ≤ 63)

/-- A DNS name passes the specification's validation when each of its labels
does. -/
def specValidDNSName (dnsName : String) : Bool :=
  (dnsLabels dnsName.data).all specValidDNSLabel

/-! ### The fixture of `TestRenderPodEntry` (entries_test.go) -/

/-- The test's `node` (lines 21-26). -/
def testNode : corev1.Node :=
  { ObjectMeta := { Name := "", Namespace := "", UID := "uid", Labels := [], Annotations := [] }
    Spec := { PodCIDR := "", ProviderID := "" } }

/-- The test's `pod` (lines 27-35). -/
def testPod : corev1.Pod :=
  { ObjectMeta :=
      { Name := "test", Namespace := "namespace", UID := "", Labels := [], Annotations := [] }
    Spec := { ServiceAccountName := "test", NodeName := "" } }

/-- An `Endpoints` object with only a name and a namespace. -/
def namedEndpoints (name namespace_ : String) : corev1.Endpoints :=
  { ObjectMeta :=
      { Name := name, Namespace := namespace_, UID := "", Labels := [], Annotations := [] }
    Subsets := [] }

/-- The test's `endpointsList` (lines 36-51). -/
def testEndpointsList : corev1.EndpointsList :=
  { Items := [namedEndpoints "endpoint" "namespace", namedEndpoints "other-endpoint" "namespace"] }

/-- The test's trust domain `example.org`. -/
def testTrustDomain : spiffeid.TrustDomain := ⟨"example.org"⟩

/-- The SPIFFE-ID template of every test case:
`spiffe://{{ .TrustDomain }}/ns/{{ .PodMeta.Namespace }}/sa/{{ .PodSpec.ServiceAccountName }}`. -/
def testSPIFFEIDTemplate : template.Template :=
  ⟨fun d => .ok ("spiffe://" ++ d.TrustDomain ++ "/ns/" ++ d.PodMeta.Namespace ++ "/sa/"
    ++ d.PodSpec.ServiceAccountName)⟩

/-- Template `{{ .PodSpec.ServiceAccountName }}.{{ .PodMeta.Namespace }}.svc.{{ .ClusterDomain }}`. -/
def tmplServiceAccountSvc : template.Template :=
  ⟨fun d => .ok (d.PodSpec.ServiceAccountName ++ "." ++ d.PodMeta.Namespace ++ ".svc." ++
    d.ClusterDomain)⟩

/-- Template `{{ .PodMeta.Name }}.{{ .PodMeta.Namespace }}.svc.{{ .ClusterDomain }}`. -/
def tmplPodSvc : template.Template :=
  ⟨fun d => .ok (d.PodMeta.Name ++ "." ++ d.PodMeta.Namespace ++ ".svc." ++ d.ClusterDomain)⟩

/-- Template `{{ .PodMeta.Name }}.{{ .TrustDomain }}.svc`. -/
def tmplPodTrustDomainSvc : template.Template :=
  ⟨fun d => .ok (d.PodMeta.Name ++ "." ++ d.TrustDomain ++ ".svc")⟩

/-- A template made of the pod name followed by a fixed text:
`{{ .PodMeta.Name }}<suffix>`. -/
def tmplPodNameThen (suffix : String) : template.Template :=
  ⟨fun d => .ok (d.PodMeta.Name ++ suffix)⟩

/-- A template without actions: it renders its own text. -/
def tmplText (text : String) : template.Template :=
  ⟨fun _ => .ok text⟩

/-- The parsed spec the test builds from a SPIFFE-ID template and DNS-name
templates (lines 96-100): no selector templates, zero TTL, no federation, flags
off. -/
def testSpec (spiffeIDTemplate : template.Template) (dnsNameTemplates : List template.Template) :
    spirev1alpha1.ParsedClusterSPIFFEIDSpec :=
  { SPIFFEIDTemplate := spiffeIDTemplate
    DNSNameTemplates := dnsNameTemplates
    WorkloadSelectorTemplates := []
    TTL := 0
    FederatesWith := []
    Admin := false
    Downstream := false }

/-- The Unicode table used where a concrete one is needed: it declares nothing
above U+00FF printable. -/
def noTable : Char → Bool := fun _ => false

/-- The suffix of the template of the test case "Invalid DNS Name too long"
(line 88): 57 hyphens followed by `end`. -/
def longSuffix : String := ⟨List.replicate 57 '-' ++ ['e', 'n', 'd']⟩

/-- A single label of 64 letters, one more than a DNS label may have. -/
def longLabel : String := ⟨List.replicate 64 'a'⟩

/-- The endpoint DNS names of the test's fixture, in sorted order. -/
def testEndpointDNSNames : List String :=
  ["endpoint", "endpoint.namespace", "endpoint.namespace.svc",
    "endpoint.namespace.svc.cluster.local", "other-endpoint", "other-endpoint.namespace",
    "other-endpoint.namespace.svc", "other-endpoint.namespace.svc.cluster.local"]

/-- Template `k8s:ns:{{ .PodMeta.Namespace }}`. -/
def tmplNamespaceSelector : template.Template :=
  ⟨fun d => .ok ("k8s:ns:" ++ d.PodMeta.Namespace)⟩

/-- The test's spec with three workload-selector templates, the first and the
last being the same text `unix:uid:0`. -/
def selectorSpec : spirev1alpha1.ParsedClusterSPIFFEIDSpec :=
  { SPIFFEIDTemplate := testSPIFFEIDTemplate
    DNSNameTemplates := []
    WorkloadSelectorTemplates := [tmplText "unix:uid:0", tmplNamespaceSelector, tmplText "unix:uid:0"]
    TTL := 0
    FederatesWith := []
    Admin := false
    Downstream := false }

/-- The entry `renderPodEntry` computes for `selectorSpec` on the test's
fixture. -/
def selectorEntry : spireapi.Entry :=
  { SPIFFEID := { td := ⟨"example.org"⟩, path := "/ns/namespace/sa/test" }
    ParentID := { td := ⟨"example.org"⟩, path := "/spire/agent/k8s_psat/test/uid" }
    Selectors :=
      [{ Type_ := "k8s", Value := "pod-uid:" }, { Type_ := "unix", Value := "uid:0" },
        { Type_ := "k8s", Value := "ns:namespace" }, { Type_ := "unix", Value := "uid:0" }]
    X509SVIDTTL := 0
    FederatesWith := []
    DNSNames := testEndpointDNSNames
    Admin := false
    Downstream := false }

/-- The DNS-name templates of the test case "Valid config with Duplicate DNS
Names" (lines 62-66). -/
def testDNSNameTemplates : List template.Template :=
  [tmplServiceAccountSvc, tmplPodSvc, tmplPodTrustDomainSvc]

/-- The entry `renderPodEntry` computes for the test case "Valid config with
Duplicate DNS Names". -/
def testEntry : spireapi.Entry :=
  { SPIFFEID := { td := ⟨"example.org"⟩, path := "/ns/namespace/sa/test" }
    ParentID := { td := ⟨"example.org"⟩, path := "/spire/agent/k8s_psat/test/uid" }
    Selectors := [{ Type_ := "k8s", Value := "pod-uid:" }]
    X509SVIDTTL := 0
    FederatesWith := []
    DNSNames :=
      ["endpoint", "endpoint.namespace", "endpoint.namespace.svc",
        "endpoint.namespace.svc.cluster.local", "other-endpoint", "other-endpoint.namespace",
        "other-endpoint.namespace.svc", "other-endpoint.namespace.svc.cluster.local",
        "test.example.org.svc", "test.namespace.svc.cluster.local"]
    Admin := false
    Downstream := false }

end spireentry

/-! ### Further inputs used to instantiate the properties -/

namespace spireentry

/-- The test's spec with static fields that differ from the zero values. -/
def staticSpec : spirev1alpha1.ParsedClusterSPIFFEIDSpec :=
  { SPIFFEIDTemplate := testSPIFFEIDTemplate
    DNSNameTemplates := testDNSNameTemplates
    WorkloadSelectorTemplates := []
    TTL := 3600000000000
    FederatesWith := [⟨"partner.org"⟩, ⟨"other.org"⟩]
    Admin := true
    Downstream := true }

/-- The entry `renderPodEntry` computes for `staticSpec` on the test's fixture. -/
def staticEntry : spireapi.Entry :=
  { testEntry with
    X509SVIDTTL := 3600000000000
    FederatesWith := [⟨"partner.org"⟩, ⟨"other.org"⟩]
    Admin := true
    Downstream := true }

/-- The test's spec with three workload-selector templates of which the second
renders `nocolon`, a text `parseSelector` rejects. -/
def failingSelectorSpec : spirev1alpha1.ParsedClusterSPIFFEIDSpec :=
  { SPIFFEIDTemplate := testSPIFFEIDTemplate
    DNSNameTemplates := testDNSNameTemplates
    WorkloadSelectorTemplates := [tmplText "unix:uid:0", tmplText "nocolon", tmplNamespaceSelector]
    TTL := 0
    FederatesWith := []
    Admin := false
    Downstream := false }

/-- A spec whose SPIFFE-ID template renders an ID of the trust domain
`other.org` and whose only workload-selector template renders `nocolon`. -/
def mismatchAndBadSelectorSpec : spirev1alpha1.ParsedClusterSPIFFEIDSpec :=
  { SPIFFEIDTemplate := tmplText "spiffe://other.org/ns/namespace/sa/test"
    DNSNameTemplates := testDNSNameTemplates
    WorkloadSelectorTemplates := [tmplText "nocolon"]
    TTL := 0
    FederatesWith := []
    Admin := false
    Downstream := false }

/-- The test's spec with one workload-selector template that renders
`app="web"`, a text without colon that holds two double quotes. -/
def quotedSelectorSpec : spirev1alpha1.ParsedClusterSPIFFEIDSpec :=
  { SPIFFEIDTemplate := testSPIFFEIDTemplate
    DNSNameTemplates := []
    WorkloadSelectorTemplates := [tmplText "app=\"web\""]
    TTL := 0
    FederatesWith := []
    Admin := false
    Downstream := false }

/-- The test's `endpointsList` with its two items exchanged. -/
def swappedEndpointsList : corev1.EndpointsList :=
  { Items := [namedEndpoints "other-endpoint" "namespace", namedEndpoints "endpoint" "namespace"] }

end spireentry

namespace strings

/-- Whether `substr` occurs in `s` at some position, on character sequences. -/
def containsChars : List Char → List Char → Bool
  | [], substr => substr.isEmpty
  | c :: cs, substr => substr.isPrefixOf (c :: cs) || containsChars cs substr

/-- Go `strings.Contains(s, substr)`. -/
def Contains (s substr : String) : Bool := containsChars s.data substr.data

end strings

namespace strconv

/-- A code point that `strconv.Quote` writes as it is: printable, and neither
the double quote nor the backslash. -/
def IsPlain (tbl : Char → Bool) (r : Char) : Prop :=
  r.toNat ≠ 34 ∧ r.toNat ≠ 92 ∧ IsPrint tbl r = true

end strconv

/-! ## `controllers/pod_controller.go` -/

namespace controllers

/-- One of the two inner loops of the index function (lines 70-74 and 75-79):
for each address with a non-nil `TargetRef` of kind `Pod`, append its UID. -/
def appendPodUIDs (podUIDs : List String) : List corev1.EndpointAddress → List String
  | [] => podUIDs
  | address :: rest =>
    match address.TargetRef with
    | some targetRef =>
      if targetRef.Kind = "Pod" then appendPodUIDs (podUIDs ++ [targetRef.UID]) rest
      else appendPodUIDs podUIDs rest
    | none => appendPodUIDs podUIDs rest

/-- The outer loop of the index function over `endpoints.Subsets` (lines 69-80). -/
def indexSubsets (podUIDs : List String) : List corev1.EndpointSubset → List String
  | [] => podUIDs
  | subset :: rest =>
    indexSubsets
      (appendPodUIDs (appendPodUIDs podUIDs subset.Addresses) subset.NotReadyAddresses) rest

/-- The index function that `PodReconciler.SetupWithManager` registers for
`Endpoints` objects (lines 66-83). -/
def endpointUIDIndexFunc (endpoints : corev1.Endpoints) : List String :=
  indexSubsets [] endpoints.Subsets

/-- The UID an address contributes to the index: that of its `TargetRef` when
the reference is present and of kind `Pod`, nothing otherwise. -/
def specPodUID (address : corev1.EndpointAddress) : Option String :=
  match address.TargetRef with
  | some targetRef => if targetRef.Kind = "Pod" then some targetRef.UID else none
  | none => none

/-- The index as the property words it: subset by subset, the pod UIDs of the
subset's `Addresses` followed by those of its `NotReadyAddresses`. -/
def specEndpointPodUIDs (endpoints : corev1.Endpoints) : List String :=
  endpoints.Subsets.flatMap
    (fun subset => subset.Addresses.filterMap specPodUID
      ++ subset.NotReadyAddresses.filterMap specPodUID)

/-- An address that targets an object of the given kind and UID. -/
def addressOf (kind uid : String) : corev1.EndpointAddress :=
  { IP := "10.0.0.1"
    TargetRef := some { Kind := kind, Namespace := "namespace", Name := "", UID := uid } }

/-- An `Endpoints` object with two subsets: pod `a` ready and pod `b` not ready
in the first, and in the second an address without target, a `Node` target and
pod `a` once more. -/
def sampleEndpoints : corev1.Endpoints :=
  { ObjectMeta :=
      { Name := "endpoint", Namespace := "namespace", UID := "", Labels := [], Annotations := [] }
    Subsets :=
      [{ Addresses := [addressOf "Pod" "a"], NotReadyAddresses := [addressOf "Pod" "b"] },
        { Addresses := [{ IP := "10.0.0.2", TargetRef := none }, addressOf "Node" "n"],
          NotReadyAddresses := [addressOf "Pod" "a"] }] }

end controllers

/-! ### `PodReconciler.Reconcile` -/

namespace stringset

/-- Go `stringset.StringSet` (package `pkg/stringset`), taken as what its
method `In` answers for each string. -/
structure StringSet where
  In : String → Bool

end stringset

namespace ctrl

/-- Go `ctrl.Request`: the namespaced name of the object to reconcile. -/
structure Request where
  Namespace : String
  Name : String
  deriving DecidableEq, Repr

/-- Go `ctrl.Result`; the zero value asks for no requeue. -/
structure Result where
  Requeue : Bool
  RequeueAfter : Int
  deriving DecidableEq, Repr

end ctrl

namespace controllers

/-- The calls `Reconcile` makes on its collaborators, in the order made. -/
inductive Call where
  | LogInfo (level : Nat) (msg : String)
  | Trigger
  deriving DecidableEq, Repr

/-- Go `PodReconciler` (lines 35-40), with the field `Reconcile` reads besides
`Triggerer`; the calls on `Triggerer` are recorded as `Call.Trigger`. -/
structure PodReconciler where
  IgnoreNamespaces : stringset.StringSet

/-- Go `PodReconciler.Reconcile` (lines 52-58): the returned `ctrl.Result` and
error (`none` for nil), and the calls made. -/
def PodReconciler.Reconcile (r : PodReconciler) (req : ctrl.Request) :
    (ctrl.Result × Option String) × List Call :=
  let calls : List Call :=
    if !r.IgnoreNamespaces.In req.Namespace then
      [Call.LogInfo 1 "Triggering reconciliation", Call.Trigger]
    else []
  (({ Requeue := false, RequeueAfter := 0 }, none), calls)

/-- A reconciler that ignores the namespaces `kube-system` and `spire-system`. -/
def sampleReconciler : PodReconciler :=
  { IgnoreNamespaces := ⟨fun s => decide (s ∈ ["kube-system", "spire-system"])⟩ }

end controllers

/-! ## Auxiliary facts -/

namespace strings

theorem bytesLess_asymm : ∀ a b : List Nat, bytesLess a b = true → bytesLess b a = false
  | [], [] => by simp [bytesLess]
  | [], _ :: _ => by simp [bytesLess]
  | _ :: _, [] => by simp [bytesLess]
  | x :: xs, y :: ys => by
    intro h
    simp only [bytesLess] at h ⊢
    by_cases h1 : x < y
    · have h2 : ¬ y < x := by omega
      simp [h1, h2]
    · by_cases h2 : y < x
      · simp [h1, h2] at h
      · simp only [h1, h2, if_false] at h ⊢
        exact bytesLess_asymm xs ys h

theorem bytesLess_negTrans : ∀ a b c : List Nat,
    bytesLess b a = false → bytesLess c b = false → bytesLess c a = false
  | [], _, [] => by simp [bytesLess]
  | [], _, _ :: _ => by simp [bytesLess]
  | _ :: _, [], [] => by simp [bytesLess]
  | _ :: _, [], _ :: _ => by simp [bytesLess]
  | _ :: _, _ :: _, [] => by simp [bytesLess]
  | x :: xs, y :: ys, z :: zs => by
    intro h1 h2
    simp only [bytesLess] at h1 h2 ⊢
    by_cases hyx : y < x
    · simp [hyx] at h1
    · by_cases hzy : z < y
      · simp [hzy] at h2
      · simp only [hyx, hzy, if_false] at h1 h2
        by_cases hxy : x < y
        · have hzx : ¬ z < x := by omega
          have hxz : x < z := by omega
          simp [hzx, hxz]
        · by_cases hyz : y < z
          · have hzx : ¬ z < x := by omega
            have hxz : x < z := by omega
            simp [hzx, hxz]
          · simp only [hxy, hyz, if_false] at h1 h2
            have hzx : ¬ z < x := by omega
            have hxz : ¬ x < z := by omega
            simp only [hzx, hxz, if_false]
            exact bytesLess_negTrans xs ys zs h1 h2

end strings

namespace sort

instance StringLE.isTotal : IsTotal String StringLE where
  total a b := by
    unfold StringLE strings.Less
    cases h : strings.bytesLess (strings.bytes b) (strings.bytes a)
    · exact Or.inl rfl
    · exact Or.inr (strings.bytesLess_asymm _ _ h)

instance StringLE.isTrans : IsTrans String StringLE where
  trans a b c hab hbc := by
    unfold StringLE strings.Less at *
    exact strings.bytesLess_negTrans _ _ _ hab hbc

theorem Strings_perm (x : List String) : (Strings x).Perm x :=
  List.perm_insertionSort StringLE x

theorem Strings_sorted (x : List String) : (Strings x).Sorted StringLE :=
  List.sorted_insertionSort StringLE x

theorem mem_Strings (x : List String) (s : String) : s ∈ Strings x ↔ s ∈ x :=
  (Strings_perm x).mem_iff

end sort

namespace spireentry

theorem SetInv.empty : SetInv [] [] := ⟨List.nodup_nil, fun _ => Iff.rfl⟩

theorem appendIfNotExists_inv {slice sliceSet : List String} (item : String)
    (h : SetInv slice sliceSet) :
    SetInv (appendIfNotExists slice sliceSet item).1 (appendIfNotExists slice sliceSet item).2 := by
  unfold appendIfNotExists
  by_cases hm : item ∈ sliceSet
  · simpa [hm] using h
  · have hs : item ∉ slice := fun hc => hm ((h.2 item).2 hc)
    simp only [hm, if_false]
    refine ⟨?_, ?_⟩
    · rw [List.nodup_append]
      refine ⟨h.1, List.nodup_singleton _, ?_⟩
      intro a ha hb
      rw [List.mem_singleton] at hb
      exact hs (hb ▸ ha)
    · intro x
      simp only [List.mem_cons, List.mem_append, List.mem_singleton, List.not_mem_nil, or_false]
      rw [h.2 x]
      exact or_comm

theorem appendIfNotExists_mem {slice sliceSet : List String} (item y : String)
    (h : SetInv slice sliceSet) :
    y ∈ (appendIfNotExists slice sliceSet item).1 ↔ y ∈ slice ∨ y = item := by
  unfold appendIfNotExists
  by_cases hm : item ∈ sliceSet
  · simp only [hm, if_true]
    constructor
    · exact Or.inl
    · rintro (hy | hy)
      · exact hy
      · exact hy ▸ (h.2 item).1 hm
  · simp [hm]

theorem addEndpointDNSNames_inv {dnsNames dnsNamesSet : List String} (endpoint : corev1.Endpoints)
    (clusterDomain : String) (h : SetInv dnsNames dnsNamesSet) :
    SetInv (addEndpointDNSNames dnsNames dnsNamesSet endpoint clusterDomain).1
      (addEndpointDNSNames dnsNames dnsNamesSet endpoint clusterDomain).2 := by
  unfold addEndpointDNSNames
  have h1 := appendIfNotExists_inv endpoint.ObjectMeta.Name h
  have h2 := appendIfNotExists_inv
    (endpoint.ObjectMeta.Name ++ "." ++ endpoint.ObjectMeta.Namespace) h1
  have h3 := appendIfNotExists_inv
    (endpoint.ObjectMeta.Name ++ "." ++ endpoint.ObjectMeta.Namespace ++ ".svc") h2
  by_cases hc : clusterDomain = ""
  · simpa [hc] using h3
  · simp only [ne_eq, hc, not_false_eq_true, if_true]
    exact appendIfNotExists_inv _ h3

theorem addEndpointDNSNames_mem {dnsNames dnsNamesSet : List String} (endpoint : corev1.Endpoints)
    (clusterDomain y : String) (h : SetInv dnsNames dnsNamesSet) :
    y ∈ (addEndpointDNSNames dnsNames dnsNamesSet endpoint clusterDomain).1 ↔
      y ∈ dnsNames ∨ IsServiceDNSName endpoint clusterDomain y := by
  unfold addEndpointDNSNames IsServiceDNSName
  have h1 := appendIfNotExists_inv endpoint.ObjectMeta.Name h
  have h2 := appendIfNotExists_inv
    (endpoint.ObjectMeta.Name ++ "." ++ endpoint.ObjectMeta.Namespace) h1
  have h3 := appendIfNotExists_inv
    (endpoint.ObjectMeta.Name ++ "." ++ endpoint.ObjectMeta.Namespace ++ ".svc") h2
  by_cases hc : clusterDomain = ""
  · simp only [hc, ne_eq, not_true_eq_false, if_false, false_and, or_false]
    rw [appendIfNotExists_mem _ _ h2, appendIfNotExists_mem _ _ h1, appendIfNotExists_mem _ _ h]
    tauto
  · simp only [ne_eq, hc, not_false_eq_true, if_true, true_and]
    rw [appendIfNotExists_mem _ _ h3, appendIfNotExists_mem _ _ h2, appendIfNotExists_mem _ _ h1,
      appendIfNotExists_mem _ _ h]
    tauto

theorem addServiceDNSNamesLoop_spec (clusterDomain : String) :
    ∀ (items : List corev1.Endpoints) (dnsNames dnsNamesSet : List String),
      SetInv dnsNames dnsNamesSet →
      SetInv (addServiceDNSNamesLoop dnsNames dnsNamesSet clusterDomain items).1
        (addServiceDNSNamesLoop dnsNames dnsNamesSet clusterDomain items).2 ∧
      ∀ y, y ∈ (addServiceDNSNamesLoop dnsNames dnsNamesSet clusterDomain items).1 ↔
        y ∈ dnsNames ∨ ∃ endpoint ∈ items, IsServiceDNSName endpoint clusterDomain y
  | [], dnsNames, dnsNamesSet, h => by
    simp [addServiceDNSNamesLoop, h]
  | endpoint :: rest, dnsNames, dnsNamesSet, h => by
    have hi := addEndpointDNSNames_inv endpoint clusterDomain h
    have ih := addServiceDNSNamesLoop_spec clusterDomain rest _ _ hi
    simp only [addServiceDNSNamesLoop]
    refine ⟨ih.1, fun y => ?_⟩
    rw [ih.2 y, addEndpointDNSNames_mem endpoint clusterDomain y h]
    simp only [List.mem_cons, exists_eq_or_imp]
    tauto

theorem renderTemplate_ok (tmpl : template.Template) (data : templateData) (out : String) :
    renderTemplate tmpl data = .ok out ↔ tmpl.Execute data = .ok out := by
  unfold renderTemplate
  cases tmpl.Execute data <;> simp

theorem renderDNSName_ok (tbl : Char → Bool) (tmpl : template.Template) (data : templateData)
    (out : String) : renderDNSName tbl tmpl data = .ok out ↔ tmpl.Execute data = .ok out := by
  rw [← renderTemplate_ok]
  unfold renderDNSName validateDNSName
  cases renderTemplate tmpl data <;> simp

theorem addRenderedDNSNames_spec (tbl : Char → Bool) (data : templateData) :
    ∀ (templates : List template.Template) (dnsNames dnsNamesSet : List String)
      (r : List String × List String),
      SetInv dnsNames dnsNamesSet →
      addRenderedDNSNames tbl dnsNames dnsNamesSet data templates = .ok r →
      SetInv r.1 r.2 ∧
      ∀ y, y ∈ r.1 ↔ y ∈ dnsNames ∨ ∃ t ∈ templates, t.Execute data = .ok y
  | [], dnsNames, dnsNamesSet, r, h, hr => by
    simp only [addRenderedDNSNames, Except.ok.injEq] at hr
    subst hr
    simp [h]
  | t :: rest, dnsNames, dnsNamesSet, r, h, hr => by
    simp only [addRenderedDNSNames] at hr
    cases hd : renderDNSName tbl t data with
    | error err => simp [hd] at hr
    | ok dnsName =>
      simp only [hd] at hr
      have hi := appendIfNotExists_inv dnsName h
      have ih := addRenderedDNSNames_spec tbl data rest _ _ r hi hr
      refine ⟨ih.1, fun y => ?_⟩
      rw [ih.2 y, appendIfNotExists_mem dnsName y h]
      simp only [List.mem_cons, exists_eq_or_imp]
      rw [(renderDNSName_ok tbl t data dnsName)] at hd
      constructor
      · rintro ((hy | hy) | hy)
        · exact Or.inl hy
        · exact Or.inr (Or.inl (hy ▸ hd))
        · exact Or.inr (Or.inr hy)
      · rintro (hy | hy | hy)
        · exact Or.inl (Or.inl hy)
        · rw [hd] at hy
          exact Or.inl (Or.inr (Except.ok.inj hy).symm)
        · exact Or.inr hy

/-- What a successful `renderPodEntry` went through, stage by stage. -/
theorem renderPodEntry_ok (tbl : Char → Bool) (spec : spirev1alpha1.ParsedClusterSPIFFEIDSpec)
    (node : corev1.Node) (pod : corev1.Pod) (endpointsList : corev1.EndpointsList)
    (trustDomain : spiffeid.TrustDomain) (clusterName clusterDomain : String)
    (entry : spireapi.Entry)
    (h : renderPodEntry tbl spec node pod endpointsList trustDomain clusterName clusterDomain
      = .ok entry) :
    ∃ parentID spiffeID r selectors,
      spiffeid.FromPathf trustDomain
        ("/spire/agent/k8s_psat/" ++ clusterName ++ "/" ++ node.ObjectMeta.UID) = .ok parentID ∧
      renderSPIFFEID tbl spec.SPIFFEIDTemplate
        (newTemplateData node pod trustDomain clusterName clusterDomain) trustDomain
        = .ok spiffeID ∧
      addRenderedDNSNames tbl (addServiceDNSNames [] [] endpointsList clusterDomain).1
        (addServiceDNSNames [] [] endpointsList clusterDomain).2
        (newTemplateData node pod trustDomain clusterName clusterDomain) spec.DNSNameTemplates
        = .ok r ∧
      renderWorkloadSelectors tbl [{ Type_ := "k8s", Value := "pod-uid:" ++ pod.ObjectMeta.UID }]
        (newTemplateData node pod trustDomain clusterName clusterDomain)
        spec.WorkloadSelectorTemplates = .ok selectors ∧
      entry = { SPIFFEID := spiffeID
                ParentID := parentID
                Selectors := selectors
                X509SVIDTTL := spec.TTL
                FederatesWith := spec.FederatesWith
                DNSNames := sort.Strings r.1
                Admin := spec.Admin
                Downstream := spec.Downstream } := by
  unfold renderPodEntry at h
  cases h1 : spiffeid.FromPathf trustDomain
      ("/spire/agent/k8s_psat/" ++ clusterName ++ "/" ++ node.ObjectMeta.UID) with
  | error err => simp [h1] at h
  | ok parentID =>
    simp only [h1] at h
    cases h2 : renderSPIFFEID tbl spec.SPIFFEIDTemplate
        (newTemplateData node pod trustDomain clusterName clusterDomain) trustDomain with
    | error err => simp [h2] at h
    | ok spiffeID =>
      simp only [h2] at h
      cases h3 : addRenderedDNSNames tbl (addServiceDNSNames [] [] endpointsList clusterDomain).1
          (addServiceDNSNames [] [] endpointsList clusterDomain).2
          (newTemplateData node pod trustDomain clusterName clusterDomain)
          spec.DNSNameTemplates with
      | error err => simp [h3] at h
      | ok r =>
        simp only [h3] at h
        cases h4 : renderWorkloadSelectors tbl
            [{ Type_ := "k8s", Value := "pod-uid:" ++ pod.ObjectMeta.UID }]
            (newTemplateData node pod trustDomain clusterName clusterDomain)
            spec.WorkloadSelectorTemplates with
        | error err => simp [h4] at h
        | ok selectors =>
          simp only [h4, Except.ok.injEq] at h
          exact ⟨parentID, spiffeID, r, selectors, rfl, rfl, rfl, rfl, h.symm⟩

/-- The DNS names of a successful `renderPodEntry`: the sorted slice that the
two DNS stages built. -/
theorem renderPodEntry_dnsNames (tbl : Char → Bool)
    (spec : spirev1alpha1.ParsedClusterSPIFFEIDSpec)
    (node : corev1.Node) (pod : corev1.Pod) (endpointsList : corev1.EndpointsList)
    (trustDomain : spiffeid.TrustDomain) (clusterName clusterDomain : String)
    (entry : spireapi.Entry)
    (h : renderPodEntry tbl spec node pod endpointsList trustDomain clusterName clusterDomain
      = .ok entry) :
    ∃ names : List String, entry.DNSNames = sort.Strings names ∧ names.Nodup ∧
      ∀ y, y ∈ names ↔
        (∃ endpoint ∈ endpointsList.Items, IsServiceDNSName endpoint clusterDomain y) ∨
        (∃ t ∈ spec.DNSNameTemplates,
          t.Execute (newTemplateData node pod trustDomain clusterName clusterDomain) = .ok y) := by
  obtain ⟨parentID, spiffeID, r, selectors, -, -, h3, -, he⟩ :=
    renderPodEntry_ok tbl spec node pod endpointsList trustDomain clusterName clusterDomain entry h
  have hs := addServiceDNSNamesLoop_spec clusterDomain endpointsList.Items [] [] SetInv.empty
  have hr := addRenderedDNSNames_spec tbl _ spec.DNSNameTemplates _ _ r hs.1 h3
  refine ⟨r.1, by rw [he], hr.1.1, fun y => ?_⟩
  rw [hr.2 y]
  have hy := hs.2 y
  simp only [List.not_mem_nil, false_or] at hy
  exact or_congr_left hy

end spireentry

/-! ## The DNS-name set -/

namespace strings

theorem bytesLess_iff_lt : ∀ a b : List Nat, bytesLess a b = true ↔ a < b
  | [], [] => by
    simp only [bytesLess, Bool.false_eq_true, false_iff]
    intro h
    cases h
  | [], _ :: _ => by
    simp only [bytesLess, true_iff]
    exact List.Lex.nil
  | _ :: _, [] => by
    simp only [bytesLess, Bool.false_eq_true, false_iff]
    intro h
    cases h
  | x :: xs, y :: ys => by
    simp only [bytesLess]
    by_cases h1 : x < y
    · simp only [h1, if_true, true_iff]
      exact List.Lex.rel h1
    · by_cases h2 : y < x
      · simp only [h1, h2, if_true, if_false, Bool.false_eq_true, false_iff]
        intro h
        cases h with
        | cons _ => exact Nat.lt_irrefl _ h2
        | rel h => exact h1 h
      · simp only [h1, h2, if_false]
        rw [bytesLess_iff_lt xs ys]
        have hxy : x = y := by omega
        subst hxy
        constructor
        · exact fun h => List.Lex.cons h
        · intro h
          cases h with
          | cons h => exact h
          | rel h => exact absurd h h1

end strings

namespace sort

/-- The order of `sort.Strings` is the lexicographic order of the byte
sequences. -/
theorem StringLE_iff_bytes_le (a b : String) : StringLE a b ↔ strings.bytes a ≤ strings.bytes b := by
  unfold StringLE strings.Less
  rw [← Bool.not_eq_true, strings.bytesLess_iff_lt]
  exact not_lt

end sort

namespace spireentry

/-- C1: whenever `renderPodEntry` returns an entry, no string occurs twice in
the entry's `DNSNames`, whatever the endpoints, DNS-name templates and cluster
domain are. -/
theorem renderPodEntry_dnsNames_nodup (tbl : Char → Bool)
    (spec : spirev1alpha1.ParsedClusterSPIFFEIDSpec)
    (node : corev1.Node) (pod : corev1.Pod) (endpointsList : corev1.EndpointsList)
    (trustDomain : spiffeid.TrustDomain) (clusterName clusterDomain : String)
    (entry : spireapi.Entry)
    (h : renderPodEntry tbl spec node pod endpointsList trustDomain clusterName clusterDomain
      = .ok entry) :
    entry.DNSNames.Nodup := by
  obtain ⟨names, he, hn, -⟩ :=
    renderPodEntry_dnsNames tbl spec node pod endpointsList trustDomain clusterName clusterDomain
      entry h
  rw [he]
  exact (sort.Strings_perm names).nodup_iff.2 hn

/-- C1, on the test case with duplicate DNS names: two of the three templates
render `test.namespace.svc.cluster.local`, which the entry holds once. -/
theorem renderPodEntry_dnsNames_nodup_witness :
    renderPodEntry noTable (testSpec testSPIFFEIDTemplate testDNSNameTemplates) testNode testPod
        testEndpointsList testTrustDomain "test" "cluster.local" = .ok testEntry
      ∧ testEntry.DNSNames.Nodup :=
  ⟨rfl, renderPodEntry_dnsNames_nodup noTable (testSpec testSPIFFEIDTemplate testDNSNameTemplates)
    testNode testPod testEndpointsList testTrustDomain "test" "cluster.local" testEntry rfl⟩

/-- C2: whenever `renderPodEntry` returns an entry, its `DNSNames` are in
ascending byte-wise lexicographic order: for all indices `i < j` the bytes of
`DNSNames[i]` are at most the bytes of `DNSNames[j]`. -/
theorem renderPodEntry_dnsNames_sorted (tbl : Char → Bool)
    (spec : spirev1alpha1.ParsedClusterSPIFFEIDSpec)
    (node : corev1.Node) (pod : corev1.Pod) (endpointsList : corev1.EndpointsList)
    (trustDomain : spiffeid.TrustDomain) (clusterName clusterDomain : String)
    (entry : spireapi.Entry)
    (h : renderPodEntry tbl spec node pod endpointsList trustDomain clusterName clusterDomain
      = .ok entry) :
    ∀ (i j : Nat) (hj : j < entry.DNSNames.length) (hij : i < j),
      strings.bytes (entry.DNSNames.get ⟨i, Nat.lt_trans hij hj⟩)
        ≤ strings.bytes (entry.DNSNames.get ⟨j, hj⟩) := by
  obtain ⟨names, he, -, -⟩ :=
    renderPodEntry_dnsNames tbl spec node pod endpointsList trustDomain clusterName clusterDomain
      entry h
  intro i j hj hij
  have hs : entry.DNSNames.Sorted sort.StringLE := he ▸ sort.Strings_sorted names
  rw [← sort.StringLE_iff_bytes_le]
  exact (List.pairwise_iff_get.1 hs) ⟨i, Nat.lt_trans hij hj⟩ ⟨j, hj⟩ hij

/-- C2, on the test case: the entry's first DNS name, `endpoint`, is at most
its last one, `test.namespace.svc.cluster.local`. -/
theorem renderPodEntry_dnsNames_sorted_witness :
    renderPodEntry noTable (testSpec testSPIFFEIDTemplate testDNSNameTemplates) testNode testPod
        testEndpointsList testTrustDomain "test" "cluster.local" = .ok testEntry
      ∧ strings.bytes "endpoint" ≤ strings.bytes "test.namespace.svc.cluster.local" :=
  ⟨rfl, renderPodEntry_dnsNames_sorted noTable
    (testSpec testSPIFFEIDTemplate testDNSNameTemplates)
    testNode testPod testEndpointsList testTrustDomain "test" "cluster.local" testEntry rfl
    0 9 (by decide) (by decide)⟩

/-- C3: whenever `renderPodEntry` returns an entry, a string is one of its
`DNSNames` exactly when it is one of the candidates of some endpoint (`name`,
`name.namespace`, `name.namespace.svc` and, only for a non-empty cluster domain,
`name.namespace.svc.clusterDomain`) or the rendering of one of the DNS-name
templates; with an empty cluster domain only the first three candidates count. -/
theorem renderPodEntry_dnsNames_mem (tbl : Char → Bool)
    (spec : spirev1alpha1.ParsedClusterSPIFFEIDSpec)
    (node : corev1.Node) (pod : corev1.Pod) (endpointsList : corev1.EndpointsList)
    (trustDomain : spiffeid.TrustDomain) (clusterName clusterDomain : String)
    (entry : spireapi.Entry)
    (h : renderPodEntry tbl spec node pod endpointsList trustDomain clusterName clusterDomain
      = .ok entry) (s : String) :
    (s ∈ entry.DNSNames ↔
      (∃ e ∈ endpointsList.Items,
        s = e.ObjectMeta.Name
        ∨ s = e.ObjectMeta.Name ++ "." ++ e.ObjectMeta.Namespace
        ∨ s = e.ObjectMeta.Name ++ "." ++ e.ObjectMeta.Namespace ++ ".svc"
        ∨ (clusterDomain ≠ "" ∧
            s = e.ObjectMeta.Name ++ "." ++ e.ObjectMeta.Namespace ++ ".svc." ++ clusterDomain))
      ∨ (∃ t ∈ spec.DNSNameTemplates,
          t.Execute (newTemplateData node pod trustDomain clusterName clusterDomain) = .ok s))
    ∧ (clusterDomain = "" →
        (s ∈ entry.DNSNames ↔
          (∃ e ∈ endpointsList.Items,
            s = e.ObjectMeta.Name
            ∨ s = e.ObjectMeta.Name ++ "." ++ e.ObjectMeta.Namespace
            ∨ s = e.ObjectMeta.Name ++ "." ++ e.ObjectMeta.Namespace ++ ".svc")
          ∨ (∃ t ∈ spec.DNSNameTemplates,
              t.Execute (newTemplateData node pod trustDomain clusterName clusterDomain)
                = .ok s))) := by
  obtain ⟨names, he, -, hm⟩ :=
    renderPodEntry_dnsNames tbl spec node pod endpointsList trustDomain clusterName clusterDomain
      entry h
  have hmem : s ∈ entry.DNSNames ↔ s ∈ names := by rw [he]; exact sort.mem_Strings names s
  refine ⟨?_, fun hc => ?_⟩
  · rw [hmem, hm s]
    exact Iff.rfl
  · rw [hmem, hm s]
    unfold IsServiceDNSName
    simp [hc]

/-- C3, on the test case: the fourth candidate of the endpoint `other-endpoint`
and the rendering of the third template are among the entry's DNS names. -/
theorem renderPodEntry_dnsNames_mem_witness :
    renderPodEntry noTable (testSpec testSPIFFEIDTemplate testDNSNameTemplates) testNode testPod
        testEndpointsList testTrustDomain "test" "cluster.local" = .ok testEntry
      ∧ "other-endpoint.namespace.svc.cluster.local" ∈ testEntry.DNSNames
      ∧ "test.example.org.svc" ∈ testEntry.DNSNames :=
  ⟨rfl,
    (renderPodEntry_dnsNames_mem noTable (testSpec testSPIFFEIDTemplate testDNSNameTemplates)
      testNode testPod testEndpointsList testTrustDomain "test" "cluster.local" testEntry rfl
      "other-endpoint.namespace.svc.cluster.local").1.2
      (Or.inl ⟨namedEndpoints "other-endpoint" "namespace", by simp [testEndpointsList],
        Or.inr (Or.inr (Or.inr ⟨by decide, rfl⟩))⟩),
    (renderPodEntry_dnsNames_mem noTable (testSpec testSPIFFEIDTemplate testDNSNameTemplates)
      testNode testPod testEndpointsList testTrustDomain "test" "cluster.local" testEntry rfl
      "test.example.org.svc").1.2
      (Or.inr ⟨tmplPodTrustDomainSvc, by simp [testSpec, testDNSNameTemplates], rfl⟩)⟩

/-- C4, the code on the test cases "Invalid DNS Name ends with non-alphanumeric"
and "Invalid DNS Name invalid character in the middle": the rendered names
`test-` and `test@end` fail the specification's label validation, yet
`validateDNSName` accepts them, `renderDNSName` returns them and
`renderPodEntry` returns an entry that lists them, where the claim and the test
expect the error `failed to render DNS name: invalid DNS name ...`. -/
theorem renderPodEntry_invalid_label_accepted (tbl : Char → Bool) :
    specValidDNSName "test-" = false ∧ specValidDNSName "test@end" = false
    ∧ renderDNSName tbl (tmplPodNameThen "-")
        (newTemplateData testNode testPod testTrustDomain "test" "cluster.local") = .ok "test-"
    ∧ renderDNSName tbl (tmplPodNameThen "@end")
        (newTemplateData testNode testPod testTrustDomain "test" "cluster.local") = .ok "test@end"
    ∧ renderPodEntry tbl (testSpec testSPIFFEIDTemplate [tmplPodNameThen "-"]) testNode testPod
        testEndpointsList testTrustDomain "test" "cluster.local"
        = .ok { testEntry with DNSNames := testEndpointDNSNames ++ ["test-"] }
    ∧ renderPodEntry tbl (testSpec testSPIFFEIDTemplate [tmplPodNameThen "@end"]) testNode testPod
        testEndpointsList testTrustDomain "test" "cluster.local"
        = .ok { testEntry with DNSNames := testEndpointDNSNames ++ ["test@end"] } :=
  ⟨by decide, by decide, rfl, rfl, rfl, rfl⟩

/-- C5, the code on the test case "Invalid DNS Name too long": the rendered
name, `test` followed by 57 hyphens and `end`, is a single label of 64
characters and fails the specification's validation, yet `renderDNSName`
returns it and `renderPodEntry` returns an entry that lists it, where the claim
and the test expect the error `... label length exceeded: ...`. -/
theorem renderPodEntry_long_label_accepted (tbl : Char → Bool) :
    ("test" ++ longSuffix).length = 64
    ∧ specValidDNSName ("test" ++ longSuffix) = false
    ∧ renderDNSName tbl (tmplPodNameThen longSuffix)
        (newTemplateData testNode testPod testTrustDomain "test" "cluster.local")
        = .ok ("test" ++ longSuffix)
    ∧ renderPodEntry tbl (testSpec testSPIFFEIDTemplate [tmplPodNameThen longSuffix]) testNode
        testPod testEndpointsList testTrustDomain "test" "cluster.local"
        = .ok { testEntry with DNSNames := testEndpointDNSNames ++ ["test" ++ longSuffix] } :=
  ⟨by decide, by decide, rfl, rfl⟩

/-- C6 as stated fails: for one endpoint whose name is a single label of 64
letters (and no DNS-name template) `renderPodEntry` returns an entry, and not
every DNS name of that entry passes the specification's label validation. -/
theorem renderPodEntry_dnsNames_valid_counterexample :
    ¬ ∀ entry : spireapi.Entry,
      renderPodEntry noTable (testSpec testSPIFFEIDTemplate []) testNode testPod
        { Items := [namedEndpoints longLabel "namespace"] } testTrustDomain "test" "cluster.local"
        = .ok entry →
      ∀ s ∈ entry.DNSNames, specValidDNSName s = true := by
  intro hall
  have hv := hall
    { testEntry with
      DNSNames := [longLabel, longLabel ++ ".namespace", longLabel ++ ".namespace.svc",
        longLabel ++ ".namespace.svc.cluster.local"] }
    rfl longLabel (List.mem_cons_self _ _)
  exact absurd hv (by decide)

/-- C6 as amended: whenever `renderPodEntry` returns an entry, each of its DNS
names is a name auto-populated from a service endpoint (taken as it is, without
validation) or a template-rendered name that `renderDNSName` returned, that is,
one on which `validateDNSName` reported no error. -/
theorem renderPodEntry_dnsNames_origin (tbl : Char → Bool)
    (spec : spirev1alpha1.ParsedClusterSPIFFEIDSpec)
    (node : corev1.Node) (pod : corev1.Pod) (endpointsList : corev1.EndpointsList)
    (trustDomain : spiffeid.TrustDomain) (clusterName clusterDomain : String)
    (entry : spireapi.Entry)
    (h : renderPodEntry tbl spec node pod endpointsList trustDomain clusterName clusterDomain
      = .ok entry) :
    ∀ s ∈ entry.DNSNames,
      (∃ e ∈ endpointsList.Items,
        s = e.ObjectMeta.Name
        ∨ s = e.ObjectMeta.Name ++ "." ++ e.ObjectMeta.Namespace
        ∨ s = e.ObjectMeta.Name ++ "." ++ e.ObjectMeta.Namespace ++ ".svc"
        ∨ (clusterDomain ≠ "" ∧
            s = e.ObjectMeta.Name ++ "." ++ e.ObjectMeta.Namespace ++ ".svc." ++ clusterDomain))
      ∨ (∃ t ∈ spec.DNSNameTemplates,
          renderDNSName tbl t (newTemplateData node pod trustDomain clusterName clusterDomain)
            = .ok s
          ∧ validateDNSName s = .ok ()) := by
  obtain ⟨names, he, -, hm⟩ :=
    renderPodEntry_dnsNames tbl spec node pod endpointsList trustDomain clusterName clusterDomain
      entry h
  intro s hs
  rw [he, sort.mem_Strings, hm s] at hs
  rcases hs with hs | ⟨t, ht, hx⟩
  · exact Or.inl hs
  · exact Or.inr ⟨t, ht, (renderDNSName_ok tbl t _ s).2 hx, rfl⟩

/-- C6 as amended, on the test case: `test.example.org.svc` has one of the two
origins. -/
theorem renderPodEntry_dnsNames_origin_witness :
    renderPodEntry noTable (testSpec testSPIFFEIDTemplate testDNSNameTemplates) testNode testPod
        testEndpointsList testTrustDomain "test" "cluster.local" = .ok testEntry
      ∧ ((∃ e ∈ testEndpointsList.Items,
          "test.example.org.svc" = e.ObjectMeta.Name
          ∨ "test.example.org.svc" = e.ObjectMeta.Name ++ "." ++ e.ObjectMeta.Namespace
          ∨ "test.example.org.svc" = e.ObjectMeta.Name ++ "." ++ e.ObjectMeta.Namespace ++ ".svc"
          ∨ ("cluster.local" ≠ "" ∧
              "test.example.org.svc" =
                e.ObjectMeta.Name ++ "." ++ e.ObjectMeta.Namespace ++ ".svc." ++ "cluster.local"))
        ∨ (∃ t ∈ (testSpec testSPIFFEIDTemplate testDNSNameTemplates).DNSNameTemplates,
            renderDNSName noTable t
              (newTemplateData testNode testPod testTrustDomain "test" "cluster.local")
              = .ok "test.example.org.svc"
            ∧ validateDNSName "test.example.org.svc" = .ok ())) :=
  ⟨rfl, renderPodEntry_dnsNames_origin noTable
    (testSpec testSPIFFEIDTemplate testDNSNameTemplates)
    testNode testPod testEndpointsList testTrustDomain "test" "cluster.local" testEntry rfl
    "test.example.org.svc" (by decide)⟩

end spireentry

/-! ## Workload selectors -/

namespace strings

theorem cutFirst_none (sep : Char) : ∀ l : List Char, cutFirst sep l = none ↔ sep ∉ l
  | [] => by simp [cutFirst]
  | c :: cs => by
    have ih := cutFirst_none sep cs
    by_cases hc : c = sep
    · simp [cutFirst, hc]
    · have hc2 : ¬ sep = c := fun h => hc h.symm
      cases hcut : cutFirst sep cs with
      | none => simp [cutFirst, hc, hc2, hcut, ih.1 hcut]
      | some p =>
        have hmem : sep ∈ cs := by
          by_contra hn
          rw [ih.2 hn] at hcut
          cases hcut
        simp [cutFirst, hc, hcut, hmem]

theorem cutFirst_some (sep : Char) :
    ∀ (l a b : List Char), cutFirst sep l = some (a, b) ↔ (l = a ++ sep :: b ∧ sep ∉ a)
  | [], a, b => by simp [cutFirst]
  | c :: cs, a, b => by
    by_cases hc : c = sep
    · subst hc
      simp only [cutFirst, if_true, Option.some.injEq, Prod.mk.injEq]
      constructor
      · rintro ⟨rfl, rfl⟩
        simp
      · rintro ⟨h, hn⟩
        cases a with
        | nil =>
          simp only [List.nil_append, List.cons.injEq, true_and] at h
          exact ⟨rfl, h⟩
        | cons x xs =>
          simp only [List.cons_append, List.cons.injEq] at h
          exact absurd (h.1 ▸ List.mem_cons_self _ _) hn
    · have hc2 : ¬ sep = c := fun h => hc h.symm
      simp only [cutFirst, hc, if_false]
      cases hcut : cutFirst sep cs with
      | none =>
        simp only [false_iff, not_and, not_not, reduceCtorEq]
        intro h
        exfalso
        have hn := (cutFirst_none sep cs).1 hcut
        cases a with
        | nil =>
          simp only [List.nil_append, List.cons.injEq] at h
          exact hc h.1
        | cons x xs =>
          simp only [List.cons_append, List.cons.injEq] at h
          exact hn (h.2 ▸ by simp)
      | some p =>
        obtain ⟨a0, b0⟩ := p
        have ih := (cutFirst_some sep cs a0 b0).1 hcut
        simp only [Option.some.injEq, Prod.mk.injEq]
        constructor
        · rintro ⟨rfl, rfl⟩
          refine ⟨by simp [ih.1], ?_⟩
          simp only [List.mem_cons, not_or]
          exact ⟨hc2, ih.2⟩
        · rintro ⟨h, hn⟩
          cases a with
          | nil =>
            simp only [List.nil_append, List.cons.injEq] at h
            exact absurd h.1 hc
          | cons x xs =>
            simp only [List.cons_append, List.cons.injEq] at h
            simp only [List.mem_cons, not_or] at hn
            have hx := (cutFirst_some sep cs xs b).2 ⟨h.2, hn.2⟩
            rw [hcut] at hx
            simp only [Option.some.injEq, Prod.mk.injEq] at hx
            exact ⟨by rw [h.1, hx.1], hx.2⟩

theorem utf8Bytes_ne_nil (c : Char) : utf8Bytes c ≠ [] := by
  unfold utf8Bytes
  simp only
  split_ifs <;> simp

theorem len_eq_zero (s : String) : len s = 0 ↔ s = "" := by
  unfold len bytes
  constructor
  · intro h
    apply String.ext
    cases hd : s.data with
    | nil => rfl
    | cons c cs =>
      rw [hd] at h
      simp only [utf8, List.length_append] at h
      have := utf8Bytes_ne_nil c
      have hl : (utf8Bytes c).length ≠ 0 := fun h0 => this (List.length_eq_zero.1 h0)
      omega
  · rintro rfl
    rfl

end strings

namespace spireentry

theorem data_colon_append (t v : String) : (t ++ ":" ++ v).data = t.data ++ ':' :: v.data := by
  simp [String.data_append]

/-- When `parseSelector` succeeds: the input is the type, a colon and the value,
the type has no colon, and neither is empty. -/
theorem parseSelector_ok_iff (s : String) (sel : spireapi.Selector) :
    parseSelector s = .ok sel ↔
      (s.data = sel.Type_.data ++ ':' :: sel.Value.data ∧ ':' ∉ sel.Type_.data
        ∧ sel.Type_ ≠ "" ∧ sel.Value ≠ "") := by
  unfold parseSelector strings.SplitN2
  cases hcut : strings.cutFirst ':' s.data with
  | none =>
    have hn := (strings.cutFirst_none ':' s.data).1 hcut
    simp only [reduceCtorEq, false_iff, not_and]
    intro hs
    exact absurd (hs ▸ by simp) hn
  | some p =>
    obtain ⟨a, b⟩ := p
    have hab := (strings.cutFirst_some ':' s.data a b).1 hcut
    simp only [strings.len_eq_zero]
    constructor
    · intro h
      by_cases ha : (⟨a⟩ : String) = ""
      · simp [ha] at h
      · by_cases hb : (⟨b⟩ : String) = ""
        · simp [ha, hb] at h
        · simp only [ha, hb, if_false, Except.ok.injEq] at h
          subst h
          exact ⟨hab.1, hab.2, ha, hb⟩
    · rintro ⟨hs, hn, ht, hv⟩
      have hx := (strings.cutFirst_some ':' s.data sel.Type_.data sel.Value.data).2 ⟨hs, hn⟩
      rw [hcut] at hx
      simp only [Option.some.injEq, Prod.mk.injEq] at hx
      have ha : (⟨a⟩ : String) = sel.Type_ := String.ext hx.1
      have hb : (⟨b⟩ : String) = sel.Value := String.ext hx.2
      simp [ha, hb, ht, hv]

theorem renderSelector_ok (tbl : Char → Bool) (tmpl : template.Template) (data : templateData)
    (sel : spireapi.Selector) :
    renderSelector tbl tmpl data = .ok sel ↔
      ∃ rendered, tmpl.Execute data = .ok rendered ∧ parseSelector rendered = .ok sel := by
  unfold renderSelector renderTemplate
  cases tmpl.Execute data with
  | error err => simp
  | ok rendered =>
    cases hp : parseSelector rendered with
    | error err => simp [hp]
    | ok sel0 => simp [hp]

/-- The selector loop appends, in order, one parsed selector per template. -/
theorem renderWorkloadSelectors_spec (tbl : Char → Bool) (data : templateData) :
    ∀ (templates : List template.Template) (selectors out : List spireapi.Selector),
      renderWorkloadSelectors tbl selectors data templates = .ok out →
      ∃ rendered, out = selectors ++ rendered ∧
        List.Forall₂ (fun t sel => renderSelector tbl t data = .ok sel) templates rendered
  | [], selectors, out, h => by
    simp only [renderWorkloadSelectors, Except.ok.injEq] at h
    exact ⟨[], by simp [h], List.Forall₂.nil⟩
  | t :: rest, selectors, out, h => by
    simp only [renderWorkloadSelectors] at h
    cases hs : renderSelector tbl t data with
    | error err => simp [hs] at h
    | ok sel =>
      simp only [hs] at h
      obtain ⟨rendered, ho, hf⟩ := renderWorkloadSelectors_spec tbl data rest _ out h
      exact ⟨sel :: rendered, by simp [ho], List.Forall₂.cons hs hf⟩

theorem forall₂_getElem_some {α β : Type} {R : α → β → Prop} :
    ∀ {l₁ : List α} {l₂ : List β}, List.Forall₂ R l₁ l₂ →
      ∀ (i : Nat) (a : α), l₁[i]? = some a → ∃ b, l₂[i]? = some b ∧ R a b
  | _, _, List.Forall₂.nil, i, a, h => by simp at h
  | _, _, List.Forall₂.cons hr hrest, 0, a, h => by
    simp only [List.getElem?_cons_zero, Option.some.injEq] at h
    subst h
    exact ⟨_, by simp, hr⟩
  | _, _, List.Forall₂.cons _ hrest, i + 1, a, h => by
    simp only [List.getElem?_cons_succ] at h
    obtain ⟨b, hb, hab⟩ := forall₂_getElem_some hrest i a h
    exact ⟨b, by simpa using hb, hab⟩

/-- C7: whenever `renderPodEntry` returns an entry, its `Selectors` has one
element more than there are workload-selector templates; element 0 is
`k8s` / `pod-uid:<pod UID>`; and element `i + 1` is what `parseSelector` returns
on the rendering of the `i`-th template, so declaration order is kept and
nothing is sorted or dropped. -/
theorem renderPodEntry_selectors (tbl : Char → Bool)
    (spec : spirev1alpha1.ParsedClusterSPIFFEIDSpec)
    (node : corev1.Node) (pod : corev1.Pod) (endpointsList : corev1.EndpointsList)
    (trustDomain : spiffeid.TrustDomain) (clusterName clusterDomain : String)
    (entry : spireapi.Entry)
    (h : renderPodEntry tbl spec node pod endpointsList trustDomain clusterName clusterDomain
      = .ok entry) :
    entry.Selectors.length = 1 + spec.WorkloadSelectorTemplates.length
    ∧ entry.Selectors[0]? = some { Type_ := "k8s", Value := "pod-uid:" ++ pod.ObjectMeta.UID }
    ∧ ∀ (i : Nat) (t : template.Template), spec.WorkloadSelectorTemplates[i]? = some t →
        ∃ rendered sel,
          t.Execute (newTemplateData node pod trustDomain clusterName clusterDomain) = .ok rendered
          ∧ parseSelector rendered = .ok sel
          ∧ entry.Selectors[i + 1]? = some sel := by
  obtain ⟨parentID, spiffeID, r, selectors, -, -, -, h4, he⟩ :=
    renderPodEntry_ok tbl spec node pod endpointsList trustDomain clusterName clusterDomain entry h
  obtain ⟨rendered, ho, hf⟩ := renderWorkloadSelectors_spec tbl _ _ _ _ h4
  have hsel : entry.Selectors
      = { Type_ := "k8s", Value := "pod-uid:" ++ pod.ObjectMeta.UID } :: rendered := by
    rw [he, ho]
    rfl
  refine ⟨?_, ?_, ?_⟩
  · rw [hsel, List.length_cons, hf.length_eq]
    omega
  · rw [hsel]
    simp
  · intro i t ht
    obtain ⟨sel, hsel2, hr⟩ := forall₂_getElem_some hf i t ht
    obtain ⟨out, hx, hp⟩ := (renderSelector_ok tbl t _ sel).1 hr
    exact ⟨out, sel, hx, hp, by rw [hsel, List.getElem?_cons_succ]; exact hsel2⟩

/-- C7, on the test's fixture with the selector templates `unix:uid:0`,
`k8s:ns:{{ .PodMeta.Namespace }}`, `unix:uid:0`: four selectors, the pod-uid one
first, the repeated `unix:uid:0` kept twice and in place. -/
theorem renderPodEntry_selectors_witness :
    renderPodEntry noTable selectorSpec testNode testPod testEndpointsList testTrustDomain
        "test" "cluster.local" = .ok selectorEntry
    ∧ selectorEntry.Selectors.length = 1 + selectorSpec.WorkloadSelectorTemplates.length
    ∧ selectorEntry.Selectors[0]? = some { Type_ := "k8s", Value := "pod-uid:" }
    ∧ parseSelector "unix:uid:0" = .ok { Type_ := "unix", Value := "uid:0" }
    ∧ selectorEntry.Selectors[1]? = some { Type_ := "unix", Value := "uid:0" }
    ∧ selectorEntry.Selectors[3]? = some { Type_ := "unix", Value := "uid:0" } :=
  have hw := renderPodEntry_selectors noTable selectorSpec testNode testPod testEndpointsList
    testTrustDomain "test" "cluster.local" selectorEntry rfl
  ⟨rfl, hw.1, hw.2.1, rfl, rfl, rfl⟩

/-- C8: `parseSelector` fails exactly when its input has no colon, or nothing
stands before its first colon, or nothing stands after its first colon; on every
other input it returns a selector. -/
theorem parseSelector_error_iff (s : String) :
    ((∃ msg, parseSelector s = .error msg) ↔
      (':' ∉ s.data ∨ (∃ v : String, s = ":" ++ v)
        ∨ (∃ t : String, ':' ∉ t.data ∧ s = t ++ ":")))
    ∧ ((∃ sel, parseSelector s = .ok sel) ↔
      ¬ (':' ∉ s.data ∨ (∃ v : String, s = ":" ++ v)
        ∨ (∃ t : String, ':' ∉ t.data ∧ s = t ++ ":"))) := by
  have hok : (∃ sel, parseSelector s = .ok sel) ↔
      ¬ (':' ∉ s.data ∨ (∃ v : String, s = ":" ++ v)
        ∨ (∃ t : String, ':' ∉ t.data ∧ s = t ++ ":")) := by
    constructor
    · rintro ⟨sel, hsel⟩
      obtain ⟨hs, hn, ht, hv⟩ := (parseSelector_ok_iff s sel).1 hsel
      rintro (h | ⟨v, h⟩ | ⟨t, htn, h⟩)
      · exact h (hs ▸ by simp)
      · have hd : s.data = [] ++ ':' :: v.data := by rw [h]; simp [String.data_append]
        have hc := (strings.cutFirst_some ':' s.data [] v.data).2 ⟨hd, by simp⟩
        have hc2 := (strings.cutFirst_some ':' s.data sel.Type_.data sel.Value.data).2 ⟨hs, hn⟩
        rw [hc] at hc2
        simp only [Option.some.injEq, Prod.mk.injEq] at hc2
        exact ht (String.ext hc2.1.symm)
      · have hd : s.data = t.data ++ ':' :: [] := by rw [h]; simp [String.data_append]
        have hc := (strings.cutFirst_some ':' s.data t.data []).2 ⟨hd, htn⟩
        have hc2 := (strings.cutFirst_some ':' s.data sel.Type_.data sel.Value.data).2 ⟨hs, hn⟩
        rw [hc] at hc2
        simp only [Option.some.injEq, Prod.mk.injEq] at hc2
        exact hv (String.ext hc2.2.symm)
    · intro hnot
      simp only [not_or, not_not, not_exists, not_and] at hnot
      obtain ⟨hcolon, hv, ht⟩ := hnot
      cases hcut : strings.cutFirst ':' s.data with
      | none => exact absurd hcolon ((strings.cutFirst_none ':' s.data).1 hcut)
      | some p =>
        obtain ⟨a, b⟩ := p
        have hab := (strings.cutFirst_some ':' s.data a b).1 hcut
        refine ⟨{ Type_ := ⟨a⟩, Value := ⟨b⟩ }, (parseSelector_ok_iff s _).2 ⟨hab.1, hab.2, ?_, ?_⟩⟩
        · intro ha
          have ha2 : a = [] := congrArg String.data ha
          apply hv ⟨b⟩
          apply String.ext
          rw [hab.1, ha2]
          simp [String.data_append]
        · intro hb
          have hb2 : b = [] := congrArg String.data hb
          apply ht ⟨a⟩ hab.2
          apply String.ext
          rw [hab.1, hb2]
          simp [String.data_append]
  refine ⟨?_, hok⟩
  rw [← not_iff_not, ← hok]
  cases parseSelector s <;> simp

/-- C9: when `parseSelector` returns a selector for `s`, type, colon and value
put together give `s` back, the type has no colon, and the type and the value
are the text before and the whole text after the first colon of `s`, further
colons included. -/
theorem parseSelector_first_colon (s : String) (sel : spireapi.Selector)
    (h : parseSelector s = .ok sel) :
    sel.Type_ ++ ":" ++ sel.Value = s
    ∧ ':' ∉ sel.Type_.data
    ∧ ∀ t v : String, ':' ∉ t.data → s = t ++ ":" ++ v → sel.Type_ = t ∧ sel.Value = v := by
  obtain ⟨hs, hn, -, -⟩ := (parseSelector_ok_iff s sel).1 h
  refine ⟨String.ext (by rw [data_colon_append, hs]), hn, ?_⟩
  intro t v htn hst
  have hd : s.data = t.data ++ ':' :: v.data := by rw [hst, data_colon_append]
  have hc := (strings.cutFirst_some ':' s.data t.data v.data).2 ⟨hd, htn⟩
  have hc2 := (strings.cutFirst_some ':' s.data sel.Type_.data sel.Value.data).2 ⟨hs, hn⟩
  rw [hc] at hc2
  simp only [Option.some.injEq, Prod.mk.injEq] at hc2
  exact ⟨String.ext hc2.1.symm, String.ext hc2.2.symm⟩

/-- C9, on `k8s:pod-label:app:web`: the type is `k8s` and the value keeps the
two further colons. -/
theorem parseSelector_first_colon_witness :
    parseSelector "k8s:pod-label:app:web" = .ok { Type_ := "k8s", Value := "pod-label:app:web" }
    ∧ "k8s" ++ ":" ++ "pod-label:app:web" = "k8s:pod-label:app:web"
    ∧ ':' ∉ "k8s".data :=
  have hw := parseSelector_first_colon "k8s:pod-label:app:web"
    { Type_ := "k8s", Value := "pod-label:app:web" } rfl
  ⟨rfl, hw.1, hw.2.1⟩

end spireentry

/-! ## The SPIFFE ID -/

namespace spireentry

/-- C10: when the SPIFFE-ID template renders a string that parses as a SPIFFE
ID whose trust domain is not the configured one, `renderSPIFFEID` returns the
trust-domain error (no ID), and `renderPodEntry` returns an error and no entry,
whatever the DNS-name and workload-selector templates are. -/
theorem renderSPIFFEID_trustDomain_mismatch (tbl : Char → Bool)
    (spec : spirev1alpha1.ParsedClusterSPIFFEIDSpec)
    (node : corev1.Node) (pod : corev1.Pod) (endpointsList : corev1.EndpointsList)
    (trustDomain : spiffeid.TrustDomain) (clusterName clusterDomain : String)
    (rendered : String) (id : spiffeid.ID)
    (hr : spec.SPIFFEIDTemplate.Execute
      (newTemplateData node pod trustDomain clusterName clusterDomain) = .ok rendered)
    (hid : spiffeid.FromString rendered = .ok id)
    (htd : id.TrustDomain ≠ trustDomain) :
    renderSPIFFEID tbl spec.SPIFFEIDTemplate
        (newTemplateData node pod trustDomain clusterName clusterDomain) trustDomain
      = .error ("invalid SPIFFE ID: expected trust domain " ++ strconv.Quote tbl trustDomain.String
          ++ " but got " ++ strconv.Quote tbl id.TrustDomain.String)
    ∧ ∃ msg, renderPodEntry tbl spec node pod endpointsList trustDomain clusterName clusterDomain
        = .error msg := by
  have hs : renderSPIFFEID tbl spec.SPIFFEIDTemplate
        (newTemplateData node pod trustDomain clusterName clusterDomain) trustDomain
      = .error ("invalid SPIFFE ID: expected trust domain " ++ strconv.Quote tbl trustDomain.String
          ++ " but got " ++ strconv.Quote tbl id.TrustDomain.String) := by
    unfold renderSPIFFEID renderTemplate
    simp [hr, hid, htd]
  refine ⟨hs, ?_⟩
  unfold renderPodEntry
  cases spiffeid.FromPathf trustDomain
      ("/spire/agent/k8s_psat/" ++ clusterName ++ "/" ++ node.ObjectMeta.UID) with
  | error err => exact ⟨_, rfl⟩
  | ok parentID =>
    simp only [hs]
    exact ⟨_, rfl⟩

/-- C10, on the test's fixture with the SPIFFE-ID template
`spiffe://other.org/ns/namespace/sa/test` and the trust domain `example.org`, and
with DNS-name templates that would all render. -/
theorem renderSPIFFEID_trustDomain_mismatch_witness :
    spiffeid.FromString "spiffe://other.org/ns/namespace/sa/test"
      = .ok { td := ⟨"other.org"⟩, path := "/ns/namespace/sa/test" }
    ∧ (⟨"other.org"⟩ : spiffeid.TrustDomain) ≠ testTrustDomain
    ∧ renderSPIFFEID noTable (tmplText "spiffe://other.org/ns/namespace/sa/test")
        (newTemplateData testNode testPod testTrustDomain "test" "cluster.local") testTrustDomain
      = .error "invalid SPIFFE ID: expected trust domain \"example.org\" but got \"other.org\""
    ∧ ∃ msg, renderPodEntry noTable
        (testSpec (tmplText "spiffe://other.org/ns/namespace/sa/test") testDNSNameTemplates)
        testNode testPod testEndpointsList testTrustDomain "test" "cluster.local" = .error msg :=
  have hw := renderSPIFFEID_trustDomain_mismatch noTable
    (testSpec (tmplText "spiffe://other.org/ns/namespace/sa/test") testDNSNameTemplates)
    testNode testPod testEndpointsList testTrustDomain "test" "cluster.local"
    "spiffe://other.org/ns/namespace/sa/test"
    { td := ⟨"other.org"⟩, path := "/ns/namespace/sa/test" } rfl rfl (by decide)
  ⟨rfl, by decide, hw.1, hw.2⟩

end spireentry

/-! ## The stages of `renderPodEntry` -/

namespace spireentry

/-- The four stages succeeding makes `renderPodEntry` return the assembled
entry. -/
theorem renderPodEntry_of_stages (tbl : Char → Bool)
    (spec : spirev1alpha1.ParsedClusterSPIFFEIDSpec)
    (node : corev1.Node) (pod : corev1.Pod) (endpointsList : corev1.EndpointsList)
    (trustDomain : spiffeid.TrustDomain) (clusterName clusterDomain : String)
    (parentID spiffeID : spiffeid.ID) (r : List String × List String)
    (selectors : List spireapi.Selector)
    (h1 : spiffeid.FromPathf trustDomain
      ("/spire/agent/k8s_psat/" ++ clusterName ++ "/" ++ node.ObjectMeta.UID) = .ok parentID)
    (h2 : renderSPIFFEID tbl spec.SPIFFEIDTemplate
      (newTemplateData node pod trustDomain clusterName clusterDomain) trustDomain = .ok spiffeID)
    (h3 : addRenderedDNSNames tbl (addServiceDNSNames [] [] endpointsList clusterDomain).1
      (addServiceDNSNames [] [] endpointsList clusterDomain).2
      (newTemplateData node pod trustDomain clusterName clusterDomain) spec.DNSNameTemplates
      = .ok r)
    (h4 : renderWorkloadSelectors tbl
      [{ Type_ := "k8s", Value := "pod-uid:" ++ pod.ObjectMeta.UID }]
      (newTemplateData node pod trustDomain clusterName clusterDomain)
      spec.WorkloadSelectorTemplates = .ok selectors) :
    renderPodEntry tbl spec node pod endpointsList trustDomain clusterName clusterDomain
      = .ok { SPIFFEID := spiffeID
              ParentID := parentID
              Selectors := selectors
              X509SVIDTTL := spec.TTL
              FederatesWith := spec.FederatesWith
              DNSNames := sort.Strings r.1
              Admin := spec.Admin
              Downstream := spec.Downstream } := by
  unfold renderPodEntry
  simp only [h1, h2, h3, h4]

/-- A failing parent ID is the error of `renderPodEntry`. -/
theorem renderPodEntry_parentID_error (tbl : Char → Bool)
    (spec : spirev1alpha1.ParsedClusterSPIFFEIDSpec)
    (node : corev1.Node) (pod : corev1.Pod) (endpointsList : corev1.EndpointsList)
    (trustDomain : spiffeid.TrustDomain) (clusterName clusterDomain : String) (err : String)
    (h1 : spiffeid.FromPathf trustDomain
      ("/spire/agent/k8s_psat/" ++ clusterName ++ "/" ++ node.ObjectMeta.UID) = .error err) :
    renderPodEntry tbl spec node pod endpointsList trustDomain clusterName clusterDomain
      = .error ("failed to render parent ID: " ++ err) := by
  unfold renderPodEntry
  simp only [h1]

/-- After the parent ID, a failing SPIFFE ID is the error of `renderPodEntry`. -/
theorem renderPodEntry_spiffeID_error (tbl : Char → Bool)
    (spec : spirev1alpha1.ParsedClusterSPIFFEIDSpec)
    (node : corev1.Node) (pod : corev1.Pod) (endpointsList : corev1.EndpointsList)
    (trustDomain : spiffeid.TrustDomain) (clusterName clusterDomain : String)
    (parentID : spiffeid.ID) (err : String)
    (h1 : spiffeid.FromPathf trustDomain
      ("/spire/agent/k8s_psat/" ++ clusterName ++ "/" ++ node.ObjectMeta.UID) = .ok parentID)
    (h2 : renderSPIFFEID tbl spec.SPIFFEIDTemplate
      (newTemplateData node pod trustDomain clusterName clusterDomain) trustDomain = .error err) :
    renderPodEntry tbl spec node pod endpointsList trustDomain clusterName clusterDomain
      = .error ("failed to render SPIFFE ID: " ++ err) := by
  unfold renderPodEntry
  simp only [h1, h2]

/-- After the two IDs, a failing DNS stage is the error of `renderPodEntry`. -/
theorem renderPodEntry_dns_error (tbl : Char → Bool)
    (spec : spirev1alpha1.ParsedClusterSPIFFEIDSpec)
    (node : corev1.Node) (pod : corev1.Pod) (endpointsList : corev1.EndpointsList)
    (trustDomain : spiffeid.TrustDomain) (clusterName clusterDomain : String)
    (parentID spiffeID : spiffeid.ID) (err : String)
    (h1 : spiffeid.FromPathf trustDomain
      ("/spire/agent/k8s_psat/" ++ clusterName ++ "/" ++ node.ObjectMeta.UID) = .ok parentID)
    (h2 : renderSPIFFEID tbl spec.SPIFFEIDTemplate
      (newTemplateData node pod trustDomain clusterName clusterDomain) trustDomain = .ok spiffeID)
    (h3 : addRenderedDNSNames tbl (addServiceDNSNames [] [] endpointsList clusterDomain).1
      (addServiceDNSNames [] [] endpointsList clusterDomain).2
      (newTemplateData node pod trustDomain clusterName clusterDomain) spec.DNSNameTemplates
      = .error err) :
    renderPodEntry tbl spec node pod endpointsList trustDomain clusterName clusterDomain
      = .error err := by
  unfold renderPodEntry
  simp only [h1, h2, h3]

/-- After the IDs and the DNS names, a failing selector loop is the error of
`renderPodEntry`. -/
theorem renderPodEntry_selector_error (tbl : Char → Bool)
    (spec : spirev1alpha1.ParsedClusterSPIFFEIDSpec)
    (node : corev1.Node) (pod : corev1.Pod) (endpointsList : corev1.EndpointsList)
    (trustDomain : spiffeid.TrustDomain) (clusterName clusterDomain : String)
    (parentID spiffeID : spiffeid.ID) (r : List String × List String) (err : String)
    (h1 : spiffeid.FromPathf trustDomain
      ("/spire/agent/k8s_psat/" ++ clusterName ++ "/" ++ node.ObjectMeta.UID) = .ok parentID)
    (h2 : renderSPIFFEID tbl spec.SPIFFEIDTemplate
      (newTemplateData node pod trustDomain clusterName clusterDomain) trustDomain = .ok spiffeID)
    (h3 : addRenderedDNSNames tbl (addServiceDNSNames [] [] endpointsList clusterDomain).1
      (addServiceDNSNames [] [] endpointsList clusterDomain).2
      (newTemplateData node pod trustDomain clusterName clusterDomain) spec.DNSNameTemplates
      = .ok r)
    (h4 : renderWorkloadSelectors tbl
      [{ Type_ := "k8s", Value := "pod-uid:" ++ pod.ObjectMeta.UID }]
      (newTemplateData node pod trustDomain clusterName clusterDomain)
      spec.WorkloadSelectorTemplates = .error err) :
    renderPodEntry tbl spec node pod endpointsList trustDomain clusterName clusterDomain
      = .error err := by
  unfold renderPodEntry
  simp only [h1, h2, h3, h4]

/-- The DNS loop stops at the first template that fails, with that template's
error. -/
theorem addRenderedDNSNames_first_error (tbl : Char → Bool) (data : templateData)
    (t : template.Template) (post : List template.Template) (err : String)
    (ht : renderDNSName tbl t data = .error err) :
    ∀ (pre : List template.Template) (dnsNames dnsNamesSet : List String),
      (∀ p ∈ pre, ∃ y, renderDNSName tbl p data = .ok y) →
      addRenderedDNSNames tbl dnsNames dnsNamesSet data (pre ++ t :: post)
        = .error ("failed to render DNS name: " ++ err)
  | [], dnsNames, dnsNamesSet, _ => by
    simp only [List.nil_append, addRenderedDNSNames, ht]
  | p :: pre, dnsNames, dnsNamesSet, hpre => by
    obtain ⟨y, hy⟩ := hpre p (List.mem_cons_self _ _)
    simp only [List.cons_append, addRenderedDNSNames, hy]
    exact addRenderedDNSNames_first_error tbl data t post err ht pre _ _
      (fun q hq => hpre q (List.mem_cons_of_mem _ hq))

/-- The DNS loop succeeds when every template renders. -/
theorem addRenderedDNSNames_ok_of_all (tbl : Char → Bool) (data : templateData) :
    ∀ (templates : List template.Template) (dnsNames dnsNamesSet : List String),
      (∀ t ∈ templates, ∃ y, renderDNSName tbl t data = .ok y) →
      ∃ r, addRenderedDNSNames tbl dnsNames dnsNamesSet data templates = .ok r
  | [], dnsNames, dnsNamesSet, _ => ⟨_, rfl⟩
  | t :: rest, dnsNames, dnsNamesSet, hall => by
    obtain ⟨y, hy⟩ := hall t (List.mem_cons_self _ _)
    simp only [addRenderedDNSNames, hy]
    exact addRenderedDNSNames_ok_of_all tbl data rest _ _
      (fun q hq => hall q (List.mem_cons_of_mem _ hq))

/-- When the DNS loop succeeds, every template rendered. -/
theorem addRenderedDNSNames_all_of_ok (tbl : Char → Bool) (data : templateData) :
    ∀ (templates : List template.Template) (dnsNames dnsNamesSet : List String)
      (r : List String × List String),
      addRenderedDNSNames tbl dnsNames dnsNamesSet data templates = .ok r →
      ∀ t ∈ templates, ∃ y, renderDNSName tbl t data = .ok y
  | [], _, _, _, _ => by simp
  | t :: rest, dnsNames, dnsNamesSet, r, h => by
    simp only [addRenderedDNSNames] at h
    cases hd : renderDNSName tbl t data with
    | error err => simp [hd] at h
    | ok y =>
      simp only [hd] at h
      intro q hq
      rcases List.mem_cons.1 hq with rfl | hq
      · exact ⟨y, hd⟩
      · exact addRenderedDNSNames_all_of_ok tbl data rest _ _ r h q hq

/-- The selector loop stops at the first template that fails, with that
template's error. -/
theorem renderWorkloadSelectors_first_error (tbl : Char → Bool) (data : templateData)
    (t : template.Template) (post : List template.Template) (err : String)
    (ht : renderSelector tbl t data = .error err) :
    ∀ (pre : List template.Template) (selectors : List spireapi.Selector),
      (∀ p ∈ pre, ∃ sel, renderSelector tbl p data = .ok sel) →
      renderWorkloadSelectors tbl selectors data (pre ++ t :: post)
        = .error ("failed to render workload selector: " ++ err)
  | [], selectors, _ => by
    simp only [List.nil_append, renderWorkloadSelectors, ht]
  | p :: pre, selectors, hpre => by
    obtain ⟨sel, hsel⟩ := hpre p (List.mem_cons_self _ _)
    simp only [List.cons_append, renderWorkloadSelectors, hsel]
    exact renderWorkloadSelectors_first_error tbl data t post err ht pre _
      (fun q hq => hpre q (List.mem_cons_of_mem _ hq))

/-- The selector loop succeeds when every template renders and parses. -/
theorem renderWorkloadSelectors_ok_of_all (tbl : Char → Bool) (data : templateData) :
    ∀ (templates : List template.Template) (selectors : List spireapi.Selector),
      (∀ t ∈ templates, ∃ sel, renderSelector tbl t data = .ok sel) →
      ∃ out, renderWorkloadSelectors tbl selectors data templates = .ok out
  | [], selectors, _ => ⟨_, rfl⟩
  | t :: rest, selectors, hall => by
    obtain ⟨sel, hsel⟩ := hall t (List.mem_cons_self _ _)
    simp only [renderWorkloadSelectors, hsel]
    exact renderWorkloadSelectors_ok_of_all tbl data rest _
      (fun q hq => hall q (List.mem_cons_of_mem _ hq))

/-- When the selector loop succeeds, every template rendered and parsed. -/
theorem renderWorkloadSelectors_all_of_ok (tbl : Char → Bool) (data : templateData) :
    ∀ (templates : List template.Template) (selectors out : List spireapi.Selector),
      renderWorkloadSelectors tbl selectors data templates = .ok out →
      ∀ t ∈ templates, ∃ sel, renderSelector tbl t data = .ok sel
  | [], _, _, _ => by simp
  | t :: rest, selectors, out, h => by
    simp only [renderWorkloadSelectors] at h
    cases hs : renderSelector tbl t data with
    | error err => simp [hs] at h
    | ok sel =>
      simp only [hs] at h
      intro q hq
      rcases List.mem_cons.1 hq with rfl | hq
      · exact ⟨sel, hs⟩
      · exact renderWorkloadSelectors_all_of_ok tbl data rest _ out h q hq

/-- When `renderSPIFFEID` succeeds: the template rendered a string that parses
to the returned ID, whose trust domain is the expected one. -/
theorem renderSPIFFEID_ok (tbl : Char → Bool) (tmpl : template.Template) (data : templateData)
    (expectTD : spiffeid.TrustDomain) (id : spiffeid.ID) :
    renderSPIFFEID tbl tmpl data expectTD = .ok id ↔
      ∃ rendered, tmpl.Execute data = .ok rendered ∧ spiffeid.FromString rendered = .ok id
        ∧ id.TrustDomain = expectTD := by
  unfold renderSPIFFEID renderTemplate
  cases tmpl.Execute data with
  | error err => simp
  | ok rendered =>
    cases hp : spiffeid.FromString rendered with
    | error err => simp [hp]
    | ok id0 =>
      by_cases htd : id0.TrustDomain = expectTD
      · simp only [hp, htd, ne_eq, not_true_eq_false, if_false, Except.ok.injEq, exists_eq_left']
        constructor
        · rintro rfl
          exact ⟨rfl, htd⟩
        · rintro ⟨h, -⟩
          exact h
      · simp only [hp, ne_eq, htd, not_false_eq_true, if_true, reduceCtorEq, Except.ok.injEq,
          exists_eq_left', false_iff, not_and]
        rintro rfl
        exact htd

/-- A parent ID that `FromPathf` returns has the given trust domain, which is
not the zero one, and the given path. -/
theorem FromPathf_ok (td : spiffeid.TrustDomain) (path : String) (id : spiffeid.ID)
    (h : spiffeid.FromPathf td path = .ok id) :
    id = { td := td, path := path } ∧ td.IsZero = false := by
  unfold spiffeid.FromPathf spiffeid.makeID at h
  cases hv : spiffeid.ValidatePath path with
  | error err => simp [hv] at h
  | ok u =>
    cases hz : td.IsZero with
    | true => simp [hv, hz] at h
    | false =>
      simp only [hv, hz, Bool.false_eq_true, if_false, Except.ok.injEq] at h
      exact ⟨h.symm, rfl⟩

end spireentry

/-! ## The assembled entry -/

namespace spireentry

/-- C11: whenever `renderPodEntry` returns an entry, its `SPIFFEID` is what
`spiffeid.FromString` returns on the string rendered from the SPIFFE-ID
template, and the trust domain of that ID is the one given to
`renderPodEntry`. -/
theorem renderPodEntry_spiffeID (tbl : Char → Bool)
    (spec : spirev1alpha1.ParsedClusterSPIFFEIDSpec)
    (node : corev1.Node) (pod : corev1.Pod) (endpointsList : corev1.EndpointsList)
    (trustDomain : spiffeid.TrustDomain) (clusterName clusterDomain : String)
    (entry : spireapi.Entry)
    (h : renderPodEntry tbl spec node pod endpointsList trustDomain clusterName clusterDomain
      = .ok entry) :
    (∃ rendered,
      spec.SPIFFEIDTemplate.Execute
        (newTemplateData node pod trustDomain clusterName clusterDomain) = .ok rendered
      ∧ spiffeid.FromString rendered = .ok entry.SPIFFEID)
    ∧ entry.SPIFFEID.TrustDomain = trustDomain := by
  obtain ⟨parentID, spiffeID, r, selectors, -, h2, -, -, he⟩ :=
    renderPodEntry_ok tbl spec node pod endpointsList trustDomain clusterName clusterDomain entry h
  obtain ⟨rendered, hx, hp, htd⟩ := (renderSPIFFEID_ok tbl _ _ _ _).1 h2
  subst he
  exact ⟨⟨rendered, hx, hp⟩, htd⟩

/-- C11, on the test case: the template renders
`spiffe://example.org/ns/namespace/sa/test`, which is the entry's SPIFFE ID, in
the trust domain `example.org`. -/
theorem renderPodEntry_spiffeID_witness :
    renderPodEntry noTable (testSpec testSPIFFEIDTemplate testDNSNameTemplates) testNode testPod
        testEndpointsList testTrustDomain "test" "cluster.local" = .ok testEntry
    ∧ testSPIFFEIDTemplate.Execute
        (newTemplateData testNode testPod testTrustDomain "test" "cluster.local")
        = .ok "spiffe://example.org/ns/namespace/sa/test"
    ∧ testEntry.SPIFFEID.String = "spiffe://example.org/ns/namespace/sa/test"
    ∧ testEntry.SPIFFEID.TrustDomain = testTrustDomain :=
  ⟨rfl, rfl, rfl,
    (renderPodEntry_spiffeID noTable (testSpec testSPIFFEIDTemplate testDNSNameTemplates)
      testNode testPod testEndpointsList testTrustDomain "test" "cluster.local" testEntry rfl).2⟩

/-- C12: whenever `renderPodEntry` returns an entry, the string of its
`ParentID` is `spiffe://<trust domain>/spire/agent/k8s_psat/<cluster name>/<node
UID>`; and any other successful call with the same trust domain, cluster name
and node UID, whatever its spec, pod, endpoints and cluster domain, returns the
same `ParentID`. -/
theorem renderPodEntry_parentID (tbl : Char → Bool)
    (spec : spirev1alpha1.ParsedClusterSPIFFEIDSpec)
    (node : corev1.Node) (pod : corev1.Pod) (endpointsList : corev1.EndpointsList)
    (trustDomain : spiffeid.TrustDomain) (clusterName clusterDomain : String)
    (entry : spireapi.Entry)
    (h : renderPodEntry tbl spec node pod endpointsList trustDomain clusterName clusterDomain
      = .ok entry) :
    entry.ParentID.String
      = "spiffe://" ++ trustDomain.String ++ "/spire/agent/k8s_psat/" ++ clusterName ++ "/"
          ++ node.ObjectMeta.UID
    ∧ ∀ (tbl2 : Char → Bool) (spec2 : spirev1alpha1.ParsedClusterSPIFFEIDSpec)
        (node2 : corev1.Node) (pod2 : corev1.Pod) (endpointsList2 : corev1.EndpointsList)
        (clusterDomain2 : String) (entry2 : spireapi.Entry),
        node2.ObjectMeta.UID = node.ObjectMeta.UID →
        renderPodEntry tbl2 spec2 node2 pod2 endpointsList2 trustDomain clusterName clusterDomain2
          = .ok entry2 →
        entry2.ParentID = entry.ParentID := by
  obtain ⟨parentID, spiffeID, r, selectors, h1, -, -, -, he⟩ :=
    renderPodEntry_ok tbl spec node pod endpointsList trustDomain clusterName clusterDomain entry h
  obtain ⟨hid, hz⟩ := FromPathf_ok _ _ _ h1
  constructor
  · rw [he]
    simp only [hid, spiffeid.ID.String, hz, Bool.false_eq_true, if_false,
      spiffeid.TrustDomain.String, String.append_assoc]
  · intro tbl2 spec2 node2 pod2 endpointsList2 clusterDomain2 entry2 huid h2
    obtain ⟨parentID2, spiffeID2, r2, selectors2, h12, -, -, -, he2⟩ :=
      renderPodEntry_ok tbl2 spec2 node2 pod2 endpointsList2 trustDomain clusterName
        clusterDomain2 entry2 h2
    rw [huid, h1] at h12
    rw [he, he2]
    exact (Except.ok.inj h12).symm

/-- C12, on the test case: trust domain `example.org`, cluster name `test` and
node UID `uid` give `spiffe://example.org/spire/agent/k8s_psat/test/uid`. -/
theorem renderPodEntry_parentID_witness :
    renderPodEntry noTable (testSpec testSPIFFEIDTemplate testDNSNameTemplates) testNode testPod
        testEndpointsList testTrustDomain "test" "cluster.local" = .ok testEntry
    ∧ testEntry.ParentID.String = "spiffe://example.org/spire/agent/k8s_psat/test/uid" :=
  ⟨rfl,
    (renderPodEntry_parentID noTable (testSpec testSPIFFEIDTemplate testDNSNameTemplates)
      testNode testPod testEndpointsList testTrustDomain "test" "cluster.local" testEntry rfl).1⟩

/-- C13 as stated fails: on the test case with the empty cluster name, and also
with the cluster name `a b`, the SPIFFE ID renders in the configured trust
domain, every DNS-name template renders and there is no selector template, yet
`renderPodEntry` returns the parent-ID error and no entry. -/
theorem renderPodEntry_no_own_failure_counterexample :
    renderSPIFFEID noTable testSPIFFEIDTemplate
        (newTemplateData testNode testPod testTrustDomain "" "cluster.local") testTrustDomain
      = .ok { td := ⟨"example.org"⟩, path := "/ns/namespace/sa/test" }
    ∧ (∀ t ∈ testDNSNameTemplates, ∃ y,
        renderDNSName noTable t
          (newTemplateData testNode testPod testTrustDomain "" "cluster.local") = .ok y)
    ∧ (testSpec testSPIFFEIDTemplate testDNSNameTemplates).WorkloadSelectorTemplates = []
    ∧ renderPodEntry noTable (testSpec testSPIFFEIDTemplate testDNSNameTemplates) testNode testPod
        testEndpointsList testTrustDomain "" "cluster.local"
      = .error "failed to render parent ID: path cannot contain empty segments"
    ∧ renderPodEntry noTable (testSpec testSPIFFEIDTemplate testDNSNameTemplates) testNode testPod
        testEndpointsList testTrustDomain "a b" "cluster.local"
      = .error ("failed to render parent ID: " ++ spiffeid.errBadPathSegmentChar) := by
  refine ⟨rfl, ?_, rfl, rfl, rfl⟩
  intro t ht
  simp only [testDNSNameTemplates, List.mem_cons, List.mem_singleton, List.not_mem_nil,
    or_false] at ht
  rcases ht with rfl | rfl | rfl
  · exact ⟨_, rfl⟩
  · exact ⟨_, rfl⟩
  · exact ⟨_, rfl⟩

/-- C13 as amended: when `spiffeid.FromPathf` returns a parent ID for the trust
domain and the path `/spire/agent/k8s_psat/<cluster name>/<node UID>`, the
SPIFFE ID renders, every DNS-name template renders and validates, and every
workload-selector template renders and parses, then `renderPodEntry` returns an
entry. -/
theorem renderPodEntry_succeeds (tbl : Char → Bool)
    (spec : spirev1alpha1.ParsedClusterSPIFFEIDSpec)
    (node : corev1.Node) (pod : corev1.Pod) (endpointsList : corev1.EndpointsList)
    (trustDomain : spiffeid.TrustDomain) (clusterName clusterDomain : String)
    (hparent : ∃ parentID, spiffeid.FromPathf trustDomain
      ("/spire/agent/k8s_psat/" ++ clusterName ++ "/" ++ node.ObjectMeta.UID) = .ok parentID)
    (hid : ∃ spiffeID, renderSPIFFEID tbl spec.SPIFFEIDTemplate
      (newTemplateData node pod trustDomain clusterName clusterDomain) trustDomain
      = .ok spiffeID)
    (hdns : ∀ t ∈ spec.DNSNameTemplates, ∃ y,
      renderDNSName tbl t (newTemplateData node pod trustDomain clusterName clusterDomain)
        = .ok y)
    (hsel : ∀ t ∈ spec.WorkloadSelectorTemplates, ∃ sel,
      renderSelector tbl t (newTemplateData node pod trustDomain clusterName clusterDomain)
        = .ok sel) :
    ∃ entry, renderPodEntry tbl spec node pod endpointsList trustDomain clusterName clusterDomain
      = .ok entry := by
  obtain ⟨parentID, h1⟩ := hparent
  obtain ⟨spiffeID, h2⟩ := hid
  obtain ⟨r, h3⟩ := addRenderedDNSNames_ok_of_all tbl _ spec.DNSNameTemplates
    (addServiceDNSNames [] [] endpointsList clusterDomain).1
    (addServiceDNSNames [] [] endpointsList clusterDomain).2 hdns
  obtain ⟨selectors, h4⟩ := renderWorkloadSelectors_ok_of_all tbl _ spec.WorkloadSelectorTemplates
    [{ Type_ := "k8s", Value := "pod-uid:" ++ pod.ObjectMeta.UID }] hsel
  exact ⟨_, renderPodEntry_of_stages tbl spec node pod endpointsList trustDomain clusterName
    clusterDomain parentID spiffeID r selectors h1 h2 h3 h4⟩

/-- C13 as amended, on the test's fixture with three selector templates. -/
theorem renderPodEntry_succeeds_witness :
    ∃ entry, renderPodEntry noTable selectorSpec testNode testPod testEndpointsList
      testTrustDomain "test" "cluster.local" = .ok entry :=
  renderPodEntry_succeeds noTable selectorSpec testNode testPod testEndpointsList
    testTrustDomain "test" "cluster.local" ⟨_, rfl⟩ ⟨_, rfl⟩
    (by intro t ht; simp [selectorSpec] at ht)
    (by
      intro t ht
      simp only [selectorSpec, List.mem_cons, List.mem_singleton, List.not_mem_nil,
        or_false] at ht
      rcases ht with rfl | rfl | rfl
      · exact ⟨_, rfl⟩
      · exact ⟨_, rfl⟩
      · exact ⟨_, rfl⟩)

/-- C14: if rendering the SPIFFE ID fails, or rendering or validating some
DNS-name template fails, or rendering or parsing some workload-selector template
fails, then `renderPodEntry` returns an error, hence no entry, however many
other templates succeed. -/
theorem renderPodEntry_all_or_nothing (tbl : Char → Bool)
    (spec : spirev1alpha1.ParsedClusterSPIFFEIDSpec)
    (node : corev1.Node) (pod : corev1.Pod) (endpointsList : corev1.EndpointsList)
    (trustDomain : spiffeid.TrustDomain) (clusterName clusterDomain : String)
    (hfail :
      (∃ err, renderSPIFFEID tbl spec.SPIFFEIDTemplate
        (newTemplateData node pod trustDomain clusterName clusterDomain) trustDomain
        = .error err)
      ∨ (∃ t ∈ spec.DNSNameTemplates, ∃ err,
          renderDNSName tbl t (newTemplateData node pod trustDomain clusterName clusterDomain)
            = .error err)
      ∨ (∃ t ∈ spec.WorkloadSelectorTemplates, ∃ err,
          renderSelector tbl t (newTemplateData node pod trustDomain clusterName clusterDomain)
            = .error err)) :
    (∃ msg, renderPodEntry tbl spec node pod endpointsList trustDomain clusterName clusterDomain
      = .error msg)
    ∧ ∀ entry, renderPodEntry tbl spec node pod endpointsList trustDomain clusterName
        clusterDomain ≠ .ok entry := by
  have hno : ∀ entry, renderPodEntry tbl spec node pod endpointsList trustDomain clusterName
      clusterDomain ≠ .ok entry := by
    intro entry h
    obtain ⟨parentID, spiffeID, r, selectors, -, h2, h3, h4, -⟩ :=
      renderPodEntry_ok tbl spec node pod endpointsList trustDomain clusterName clusterDomain
        entry h
    rcases hfail with ⟨err, he⟩ | ⟨t, ht, err, he⟩ | ⟨t, ht, err, he⟩
    · rw [h2] at he
      cases he
    · obtain ⟨y, hy⟩ := addRenderedDNSNames_all_of_ok tbl _ _ _ _ r h3 t ht
      rw [hy] at he
      cases he
    · obtain ⟨sel, hs⟩ := renderWorkloadSelectors_all_of_ok tbl _ _ _ selectors h4 t ht
      rw [hs] at he
      cases he
  refine ⟨?_, hno⟩
  cases hr : renderPodEntry tbl spec node pod endpointsList trustDomain clusterName
      clusterDomain with
  | error msg => exact ⟨msg, rfl⟩
  | ok entry => exact absurd hr (hno entry)

/-- C14, on the test's fixture with three DNS-name templates that render and
three selector templates of which only the second, `nocolon`, is rejected. -/
theorem renderPodEntry_all_or_nothing_witness :
    renderSelector noTable (tmplText "nocolon")
        (newTemplateData testNode testPod testTrustDomain "test" "cluster.local")
      = .error ("invalid workload selector \"nocolon\": "
          ++ "expected at least one colon separate the type from the value")
    ∧ ∃ msg, renderPodEntry noTable failingSelectorSpec testNode testPod testEndpointsList
        testTrustDomain "test" "cluster.local" = .error msg :=
  ⟨rfl,
    (renderPodEntry_all_or_nothing noTable failingSelectorSpec testNode testPod testEndpointsList
      testTrustDomain "test" "cluster.local"
      (Or.inr (Or.inr ⟨tmplText "nocolon", by simp [failingSelectorSpec], _, rfl⟩))).1⟩

/-- C15: whenever `renderPodEntry` returns an entry, its `X509SVIDTTL`,
`FederatesWith`, `Admin` and `Downstream` are the spec's `TTL`, `FederatesWith`,
`Admin` and `Downstream`. -/
theorem renderPodEntry_static_fields (tbl : Char → Bool)
    (spec : spirev1alpha1.ParsedClusterSPIFFEIDSpec)
    (node : corev1.Node) (pod : corev1.Pod) (endpointsList : corev1.EndpointsList)
    (trustDomain : spiffeid.TrustDomain) (clusterName clusterDomain : String)
    (entry : spireapi.Entry)
    (h : renderPodEntry tbl spec node pod endpointsList trustDomain clusterName clusterDomain
      = .ok entry) :
    entry.X509SVIDTTL = spec.TTL ∧ entry.FederatesWith = spec.FederatesWith
    ∧ entry.Admin = spec.Admin ∧ entry.Downstream = spec.Downstream := by
  obtain ⟨parentID, spiffeID, r, selectors, -, -, -, -, he⟩ :=
    renderPodEntry_ok tbl spec node pod endpointsList trustDomain clusterName clusterDomain entry h
  subst he
  exact ⟨rfl, rfl, rfl, rfl⟩

/-- C15, on the test's fixture with a TTL of one hour, two federated trust
domains and both flags set. -/
theorem renderPodEntry_static_fields_witness :
    renderPodEntry noTable staticSpec testNode testPod testEndpointsList testTrustDomain
        "test" "cluster.local" = .ok staticEntry
    ∧ staticEntry.X509SVIDTTL = 3600000000000
    ∧ staticEntry.FederatesWith = [⟨"partner.org"⟩, ⟨"other.org"⟩]
    ∧ staticEntry.Admin = true ∧ staticEntry.Downstream = true :=
  ⟨rfl, renderPodEntry_static_fields noTable staticSpec testNode testPod testEndpointsList
    testTrustDomain "test" "cluster.local" staticEntry rfl⟩

end spireentry

/-! ## Canonical order of the DNS names -/

namespace strings

/-- The UTF-8 encoding of a code point can be read back from the front of a
byte sequence. -/
theorem utf8Bytes_append_inj (c d : Char) (x y : List Nat)
    (h : utf8Bytes c ++ x = utf8Bytes d ++ y) : c = d ∧ x = y := by
  have hcd : c.toNat = d.toNat ∧ x = y := by
    unfold utf8Bytes at h
    simp only at h
    split_ifs at h <;>
      simp only [List.cons_append, List.nil_append, List.cons.injEq] at h <;>
      first
      | (exfalso; omega)
      | (refine ⟨?_, ?_⟩
         · omega
         · simp only [h])
  refine ⟨?_, hcd.2⟩
  rw [← Char.ofNat_toNat c, ← Char.ofNat_toNat d, hcd.1]

theorem utf8_injective : ∀ a b : List Char, utf8 a = utf8 b → a = b
  | [], [] => fun _ => rfl
  | [], d :: ds => by
    intro h
    simp only [utf8] at h
    have hl := congrArg List.length h
    simp only [List.length_nil, List.length_append] at hl
    have := utf8Bytes_ne_nil d
    have hne : (utf8Bytes d).length ≠ 0 := fun h0 => this (List.length_eq_zero.1 h0)
    omega
  | c :: cs, [] => by
    intro h
    simp only [utf8] at h
    have hl := congrArg List.length h
    simp only [List.length_nil, List.length_append] at hl
    have := utf8Bytes_ne_nil c
    have hne : (utf8Bytes c).length ≠ 0 := fun h0 => this (List.length_eq_zero.1 h0)
    omega
  | c :: cs, d :: ds => by
    intro h
    simp only [utf8] at h
    obtain ⟨hcd, hrest⟩ := utf8Bytes_append_inj c d _ _ h
    rw [hcd, utf8_injective cs ds hrest]

theorem bytes_injective (a b : String) (h : bytes a = bytes b) : a = b :=
  String.ext (utf8_injective a.data b.data h)

end strings

namespace sort

instance StringLE.isAntisymm : IsAntisymm String StringLE where
  antisymm a b hab hba := by
    rw [StringLE_iff_bytes_le] at hab hba
    exact strings.bytes_injective a b (le_antisymm hab hba)

/-- The sorted arrangement of a list of strings is unique: every ascending
permutation of `x` is `sort.Strings x`, whichever way it was computed. -/
theorem Strings_unique (x l : List String) (hp : l.Perm x) (hs : l.Sorted StringLE) :
    l = Strings x :=
  List.eq_of_perm_of_sorted (hp.trans (Strings_perm x).symm) hs (Strings_sorted x)

/-- Two duplicate-free lists with the same elements sort to the same list. -/
theorem Strings_eq_of_mem_iff (x y : List String) (hx : x.Nodup) (hy : y.Nodup)
    (h : ∀ s, s ∈ x ↔ s ∈ y) : Strings x = Strings y :=
  (Strings_unique y (Strings x)
    ((Strings_perm x).trans ((List.perm_ext_iff_of_nodup hx hy).2 h)) (Strings_sorted x))

end sort

namespace spireentry

/-- C16: when `renderPodEntry` returns an entry, it returns the same entry, with
the same `DNSNames` in the same order, after the endpoints list and the list of
DNS-name templates have been permuted in any way. -/
theorem renderPodEntry_dnsNames_order_independent (tbl : Char → Bool)
    (spec : spirev1alpha1.ParsedClusterSPIFFEIDSpec)
    (node : corev1.Node) (pod : corev1.Pod) (endpointsList : corev1.EndpointsList)
    (trustDomain : spiffeid.TrustDomain) (clusterName clusterDomain : String)
    (entry : spireapi.Entry)
    (h : renderPodEntry tbl spec node pod endpointsList trustDomain clusterName clusterDomain
      = .ok entry)
    (items2 : List corev1.Endpoints) (templates2 : List template.Template)
    (hitems : items2.Perm endpointsList.Items)
    (htemplates : templates2.Perm spec.DNSNameTemplates) :
    ∃ entry2,
      renderPodEntry tbl { spec with DNSNameTemplates := templates2 } node pod
        { Items := items2 } trustDomain clusterName clusterDomain = .ok entry2
      ∧ entry2.DNSNames = entry.DNSNames ∧ entry2 = entry := by
  obtain ⟨parentID, spiffeID, r, selectors, h1, h2, h3, h4, he⟩ :=
    renderPodEntry_ok tbl spec node pod endpointsList trustDomain clusterName clusterDomain entry h
  have hs := addServiceDNSNamesLoop_spec clusterDomain endpointsList.Items [] [] SetInv.empty
  have hs2 := addServiceDNSNamesLoop_spec clusterDomain items2 [] [] SetInv.empty
  have hr := addRenderedDNSNames_spec tbl _ spec.DNSNameTemplates _ _ r hs.1 h3
  have hall := addRenderedDNSNames_all_of_ok tbl _ _ _ _ r h3
  obtain ⟨r2, h32⟩ := addRenderedDNSNames_ok_of_all tbl
    (newTemplateData node pod trustDomain clusterName clusterDomain) templates2
    (addServiceDNSNamesLoop [] [] clusterDomain items2).1
    (addServiceDNSNamesLoop [] [] clusterDomain items2).2
    (fun t ht => hall t (htemplates.mem_iff.1 ht))
  have hr2 := addRenderedDNSNames_spec tbl _ templates2 _ _ r2 hs2.1 h32
  have hsort : sort.Strings r2.1 = sort.Strings r.1 := by
    apply sort.Strings_eq_of_mem_iff _ _ hr2.1.1 hr.1.1
    intro s
    rw [hr2.2 s, hr.2 s, hs2.2 s, hs.2 s]
    simp only [List.not_mem_nil, false_or]
    constructor
    · rintro (⟨e, he1, he2⟩ | ⟨t, ht1, ht2⟩)
      · exact Or.inl ⟨e, hitems.mem_iff.1 he1, he2⟩
      · exact Or.inr ⟨t, htemplates.mem_iff.1 ht1, ht2⟩
    · rintro (⟨e, he1, he2⟩ | ⟨t, ht1, ht2⟩)
      · exact Or.inl ⟨e, hitems.mem_iff.2 he1, he2⟩
      · exact Or.inr ⟨t, htemplates.mem_iff.2 ht1, ht2⟩
  have h2new := renderPodEntry_of_stages tbl { spec with DNSNameTemplates := templates2 } node pod
    { Items := items2 } trustDomain clusterName clusterDomain parentID spiffeID r2 selectors
    h1 h2 h32 h4
  refine ⟨_, h2new, ?_, ?_⟩
  · rw [he]
    exact hsort
  · rw [he]
    simp only [hsort]

/-- C16, on the test case: with the two endpoints exchanged and the three
DNS-name templates reversed the entry is the same. -/
theorem renderPodEntry_dnsNames_order_independent_witness :
    ∃ entry2,
      renderPodEntry noTable
        { testSpec testSPIFFEIDTemplate testDNSNameTemplates with
          DNSNameTemplates := testDNSNameTemplates.reverse }
        testNode testPod { Items := swappedEndpointsList.Items } testTrustDomain "test"
        "cluster.local" = .ok entry2
      ∧ entry2.DNSNames = testEntry.DNSNames ∧ entry2 = testEntry :=
  renderPodEntry_dnsNames_order_independent noTable
    (testSpec testSPIFFEIDTemplate testDNSNameTemplates) testNode testPod testEndpointsList
    testTrustDomain "test" "cluster.local" testEntry rfl swappedEndpointsList.Items
    testDNSNameTemplates.reverse
    (List.Perm.swap (namedEndpoints "endpoint" "namespace")
      (namedEndpoints "other-endpoint" "namespace") [])
    (List.reverse_perm testDNSNameTemplates)

/-- C17: two calls of `renderPodEntry` on equal inputs return equal results,
the same error or the same entry; and the order of the `DNSNames` of a returned
entry is fixed by their set alone: every ascending arrangement of them is the
list itself, however `sort.Strings` proceeds. -/
theorem renderPodEntry_deterministic (tbl : Char → Bool)
    (spec1 spec2 : spirev1alpha1.ParsedClusterSPIFFEIDSpec)
    (node1 node2 : corev1.Node) (pod1 pod2 : corev1.Pod)
    (endpointsList1 endpointsList2 : corev1.EndpointsList)
    (trustDomain1 trustDomain2 : spiffeid.TrustDomain)
    (clusterName1 clusterName2 clusterDomain1 clusterDomain2 : String)
    (hspec : spec1 = spec2) (hnode : node1 = node2) (hpod : pod1 = pod2)
    (hendpoints : endpointsList1 = endpointsList2) (htd : trustDomain1 = trustDomain2)
    (hname : clusterName1 = clusterName2) (hdomain : clusterDomain1 = clusterDomain2) :
    renderPodEntry tbl spec1 node1 pod1 endpointsList1 trustDomain1 clusterName1 clusterDomain1
      = renderPodEntry tbl spec2 node2 pod2 endpointsList2 trustDomain2 clusterName2
          clusterDomain2
    ∧ ∀ entry, renderPodEntry tbl spec1 node1 pod1 endpointsList1 trustDomain1 clusterName1
          clusterDomain1 = .ok entry →
        ∀ l : List String, l.Perm entry.DNSNames → l.Sorted sort.StringLE →
          l = entry.DNSNames := by
  subst hspec hnode hpod hendpoints htd hname hdomain
  refine ⟨rfl, ?_⟩
  intro entry h l hp hs
  obtain ⟨names, he, -, -⟩ :=
    renderPodEntry_dnsNames tbl spec1 node1 pod1 endpointsList1 trustDomain1 clusterName1
      clusterDomain1 entry h
  rw [he] at hp ⊢
  exact sort.Strings_unique names l (hp.trans (sort.Strings_perm names)) hs

/-- C17, on the test case, called twice. -/
theorem renderPodEntry_deterministic_witness :
    renderPodEntry noTable (testSpec testSPIFFEIDTemplate testDNSNameTemplates) testNode testPod
        testEndpointsList testTrustDomain "test" "cluster.local"
      = renderPodEntry noTable (testSpec testSPIFFEIDTemplate testDNSNameTemplates) testNode
          testPod testEndpointsList testTrustDomain "test" "cluster.local" :=
  (renderPodEntry_deterministic noTable (testSpec testSPIFFEIDTemplate testDNSNameTemplates)
    (testSpec testSPIFFEIDTemplate testDNSNameTemplates) testNode testNode testPod testPod
    testEndpointsList testEndpointsList testTrustDomain testTrustDomain "test" "test"
    "cluster.local" "cluster.local" rfl rfl rfl rfl rfl rfl rfl).1

end spireentry

/-! ## Error messages -/

namespace strings

theorem containsChars_append (x b : List Char) :
    ∀ a : List Char, containsChars (a ++ (x ++ b)) x = true
  | [] => by
    cases hxb : x ++ b with
    | nil =>
      have hx : x = [] := (List.append_eq_nil.1 hxb).1
      simp [containsChars, hx]
    | cons c cs =>
      have hp : x.isPrefixOf (c :: cs) = true := by
        rw [List.isPrefixOf_iff_prefix, ← hxb]
        exact List.prefix_append x b
      simp [containsChars, hp]
  | c :: a => by
    have ih := containsChars_append x b a
    show (x.isPrefixOf (c :: (a ++ (x ++ b))) || containsChars (a ++ (x ++ b)) x) = true
    rw [ih, Bool.or_true]

/-- A string built as `a ++ x ++ b` contains `x`. -/
theorem Contains_append (a x b : String) : Contains (a ++ x ++ b) x = true := by
  unfold Contains
  simp only [String.data_append, List.append_assoc]
  exact containsChars_append x.data b.data a.data

end strings

namespace strconv

theorem escapeRunes_plain (tbl : Char → Bool) :
    ∀ l : List Char, (∀ r ∈ l, IsPlain tbl r) → escapeRunes tbl l = l
  | [], _ => rfl
  | r :: rs, h => by
    obtain ⟨h1, h2, h3⟩ := h r (List.mem_cons_self _ _)
    have ih := escapeRunes_plain tbl rs (fun q hq => h q (List.mem_cons_of_mem _ hq))
    simp only [escapeRunes, escapeRune, h1, h2, or_self, if_false, h3, if_true, ih,
      List.singleton_append]

/-- Quoting a string of plain code points puts it between two double quotes. -/
theorem Quote_plain (tbl : Char → Bool) (s : String) (h : ∀ r ∈ s.data, IsPlain tbl r) :
    Quote tbl s = String.singleton dquote ++ s ++ String.singleton dquote := by
  apply String.ext
  simp only [Quote, escapeRunes_plain tbl s.data h, String.data_append, String.singleton,
    String.push, String.data_append]
  rfl

end strconv

namespace spireentry

theorem Contains_of_eq (s a x b : String) (h : s = a ++ x ++ b) : strings.Contains s x = true :=
  h ▸ strings.Contains_append a x b

/-- What `renderSelector` returns when `parseSelector` rejects the rendered
string. -/
theorem renderSelector_rejected (tbl : Char → Bool) (tmpl : template.Template)
    (data : templateData) (rendered err : String)
    (hx : tmpl.Execute data = .ok rendered) (hp : parseSelector rendered = .error err) :
    renderSelector tbl tmpl data
      = .error ("invalid workload selector " ++ strconv.Quote tbl rendered ++ ": " ++ err) := by
  unfold renderSelector renderTemplate
  simp only [hx, hp]

/-- What `renderSPIFFEID` returns when the rendered ID is of another trust
domain. -/
theorem renderSPIFFEID_rejected (tbl : Char → Bool) (tmpl : template.Template)
    (data : templateData) (expectTD : spiffeid.TrustDomain) (rendered : String)
    (id : spiffeid.ID) (hx : tmpl.Execute data = .ok rendered)
    (hp : spiffeid.FromString rendered = .ok id) (htd : id.TrustDomain ≠ expectTD) :
    renderSPIFFEID tbl tmpl data expectTD
      = .error ("invalid SPIFFE ID: expected trust domain " ++ strconv.Quote tbl expectTD.String
          ++ " but got " ++ strconv.Quote tbl id.TrustDomain.String) := by
  unfold renderSPIFFEID renderTemplate
  simp [hx, hp, htd]

/-- C18 as stated fails, twice.  For the SPIFFE-ID template rendering
`spiffe://other.org/ns/namespace/sa/test` under the trust domain `example.org`
the error names the two trust domains and does not contain the rendered ID.  For
a workload-selector template rendering `app="web"` the error holds the value
with its quotes escaped, and does not contain the rendered string. -/
theorem renderPodEntry_error_value_counterexample :
    (renderPodEntry noTable mismatchAndBadSelectorSpec testNode testPod testEndpointsList
        testTrustDomain "test" "cluster.local"
      = .error ("failed to render SPIFFE ID: invalid SPIFFE ID: "
          ++ "expected trust domain \"example.org\" but got \"other.org\"")
      ∧ strings.Contains
          ("failed to render SPIFFE ID: invalid SPIFFE ID: "
            ++ "expected trust domain \"example.org\" but got \"other.org\"")
          "spiffe://other.org/ns/namespace/sa/test" = false)
    ∧ (renderPodEntry noTable quotedSelectorSpec testNode testPod testEndpointsList
        testTrustDomain "test" "cluster.local"
      = .error ("failed to render workload selector: invalid workload selector "
          ++ "\"app=\\\"web\\\"\": expected at least one colon separate the type from the value")
      ∧ strings.Contains
          ("failed to render workload selector: invalid workload selector "
            ++ "\"app=\\\"web\\\"\": expected at least one colon separate the type from the value")
          "app=\"web\"" = false) :=
  ⟨⟨rfl, by decide⟩, ⟨rfl, by decide⟩⟩

/-- C18 as amended.  When the parent ID can be built: (1) if the SPIFFE-ID
template renders an ID of another trust domain, `renderPodEntry` returns an
error whose message contains the quoted expected trust domain and the quoted
trust domain of the rendered ID; (2) if the SPIFFE ID and all DNS-name templates
render and the first workload-selector template that fails renders a string
that `parseSelector` rejects, `renderPodEntry` returns an error whose message
contains `invalid workload selector ` followed by the `strconv.Quote` of that
string, and contains the string itself when all its code points are plain
(printable, no double quote, no backslash). -/
theorem renderPodEntry_error_carries_value (tbl : Char → Bool)
    (spec : spirev1alpha1.ParsedClusterSPIFFEIDSpec)
    (node : corev1.Node) (pod : corev1.Pod) (endpointsList : corev1.EndpointsList)
    (trustDomain : spiffeid.TrustDomain) (clusterName clusterDomain : String)
    (parentID : spiffeid.ID)
    (h1 : spiffeid.FromPathf trustDomain
      ("/spire/agent/k8s_psat/" ++ clusterName ++ "/" ++ node.ObjectMeta.UID) = .ok parentID) :
    (∀ (rendered : String) (id : spiffeid.ID),
      spec.SPIFFEIDTemplate.Execute
        (newTemplateData node pod trustDomain clusterName clusterDomain) = .ok rendered →
      spiffeid.FromString rendered = .ok id →
      id.TrustDomain ≠ trustDomain →
      ∃ msg, renderPodEntry tbl spec node pod endpointsList trustDomain clusterName clusterDomain
          = .error msg
        ∧ strings.Contains msg (strconv.Quote tbl trustDomain.String) = true
        ∧ strings.Contains msg (strconv.Quote tbl id.TrustDomain.String) = true)
    ∧ (∀ (spiffeID : spiffeid.ID) (pre : List template.Template) (t : template.Template)
        (post : List template.Template) (rendered err : String),
      renderSPIFFEID tbl spec.SPIFFEIDTemplate
        (newTemplateData node pod trustDomain clusterName clusterDomain) trustDomain
        = .ok spiffeID →
      (∀ d ∈ spec.DNSNameTemplates, ∃ y,
        renderDNSName tbl d (newTemplateData node pod trustDomain clusterName clusterDomain)
          = .ok y) →
      spec.WorkloadSelectorTemplates = pre ++ t :: post →
      (∀ p ∈ pre, ∃ sel,
        renderSelector tbl p (newTemplateData node pod trustDomain clusterName clusterDomain)
          = .ok sel) →
      t.Execute (newTemplateData node pod trustDomain clusterName clusterDomain) = .ok rendered →
      parseSelector rendered = .error err →
      ∃ msg, renderPodEntry tbl spec node pod endpointsList trustDomain clusterName clusterDomain
          = .error msg
        ∧ strings.Contains msg ("invalid workload selector " ++ strconv.Quote tbl rendered) = true
        ∧ ((∀ r ∈ rendered.data, strconv.IsPlain tbl r) →
            strings.Contains msg rendered = true)) := by
  constructor
  · intro rendered id hx hp htd
    have h2 := renderSPIFFEID_rejected tbl spec.SPIFFEIDTemplate _ trustDomain rendered id hx hp htd
    refine ⟨_, renderPodEntry_spiffeID_error tbl spec node pod endpointsList trustDomain
      clusterName clusterDomain parentID _ h1 h2, ?_, ?_⟩
    · exact Contains_of_eq _
        ("failed to render SPIFFE ID: " ++ "invalid SPIFFE ID: expected trust domain ") _
        (" but got " ++ strconv.Quote tbl id.TrustDomain.String)
        (by simp only [String.append_assoc])
    · exact Contains_of_eq _
        ("failed to render SPIFFE ID: " ++ "invalid SPIFFE ID: expected trust domain "
          ++ strconv.Quote tbl trustDomain.String ++ " but got ") _ ""
        (by simp only [String.append_assoc, String.append_empty])
  · intro spiffeID pre t post rendered err h2 hdns hsplit hpre hx hp
    obtain ⟨r, h3⟩ := addRenderedDNSNames_ok_of_all tbl _ spec.DNSNameTemplates
      (addServiceDNSNames [] [] endpointsList clusterDomain).1
      (addServiceDNSNames [] [] endpointsList clusterDomain).2 hdns
    have ht := renderSelector_rejected tbl t _ rendered err hx hp
    have h4 := renderWorkloadSelectors_first_error tbl _ t post _ ht pre
      [{ Type_ := "k8s", Value := "pod-uid:" ++ pod.ObjectMeta.UID }] hpre
    rw [← hsplit] at h4
    refine ⟨_, renderPodEntry_selector_error tbl spec node pod endpointsList trustDomain
      clusterName clusterDomain parentID spiffeID r _ h1 h2 h3 h4, ?_, ?_⟩
    · exact Contains_of_eq _ "failed to render workload selector: " _ (": " ++ err)
        (by simp only [String.append_assoc])
    · intro hplain
      rw [strconv.Quote_plain tbl rendered hplain]
      exact Contains_of_eq _
        ("failed to render workload selector: " ++ "invalid workload selector "
          ++ String.singleton strconv.dquote) _
        (String.singleton strconv.dquote ++ ": " ++ err)
        (by simp only [String.append_assoc])

/-- C18 as amended, on the test's fixture: the mismatch error contains
`"example.org"` and `"other.org"`, and the error for the rejected selector
`nocolon` contains `nocolon`. -/
theorem renderPodEntry_error_carries_value_witness :
    (∃ msg, renderPodEntry noTable mismatchAndBadSelectorSpec testNode testPod testEndpointsList
        testTrustDomain "test" "cluster.local" = .error msg
      ∧ strings.Contains msg (strconv.Quote noTable "example.org") = true
      ∧ strings.Contains msg (strconv.Quote noTable "other.org") = true)
    ∧ (∃ msg, renderPodEntry noTable failingSelectorSpec testNode testPod testEndpointsList
        testTrustDomain "test" "cluster.local" = .error msg
      ∧ strings.Contains msg ("invalid workload selector " ++ strconv.Quote noTable "nocolon")
          = true
      ∧ ((∀ r ∈ "nocolon".data, strconv.IsPlain noTable r) →
          strings.Contains msg "nocolon" = true)) :=
  ⟨(renderPodEntry_error_carries_value noTable mismatchAndBadSelectorSpec testNode testPod
      testEndpointsList testTrustDomain "test" "cluster.local" _ rfl).1
      "spiffe://other.org/ns/namespace/sa/test"
      { td := ⟨"other.org"⟩, path := "/ns/namespace/sa/test" } rfl rfl (by decide),
    (renderPodEntry_error_carries_value noTable failingSelectorSpec testNode testPod
      testEndpointsList testTrustDomain "test" "cluster.local" _ rfl).2
      { td := ⟨"example.org"⟩, path := "/ns/namespace/sa/test" }
      [tmplText "unix:uid:0"] (tmplText "nocolon") [tmplNamespaceSelector] "nocolon"
      "expected at least one colon separate the type from the value" rfl
      (by
        intro d hd
        simp only [failingSelectorSpec, testDNSNameTemplates, List.mem_cons, List.mem_singleton,
          List.not_mem_nil, or_false] at hd
        rcases hd with rfl | rfl | rfl
        · exact ⟨_, rfl⟩
        · exact ⟨_, rfl⟩
        · exact ⟨_, rfl⟩)
      rfl
      (by
        intro p hp
        simp only [List.mem_singleton] at hp
        subst hp
        exact ⟨_, rfl⟩)
      rfl rfl⟩

end spireentry

namespace spireentry

/-- C19: the error `renderPodEntry` returns is that of the earliest failing
stage.  A failing parent ID gives `failed to render parent ID: ...` whatever
else would fail; otherwise a failing SPIFFE ID gives
`failed to render SPIFFE ID: ...`; otherwise the first DNS-name template that
fails, in declared order, gives `failed to render DNS name: ...`; otherwise the
first workload-selector template that fails, in declared order, gives
`failed to render workload selector: ...`. -/
theorem renderPodEntry_first_error (tbl : Char → Bool)
    (spec : spirev1alpha1.ParsedClusterSPIFFEIDSpec)
    (node : corev1.Node) (pod : corev1.Pod) (endpointsList : corev1.EndpointsList)
    (trustDomain : spiffeid.TrustDomain) (clusterName clusterDomain : String) :
    (∀ err, spiffeid.FromPathf trustDomain
        ("/spire/agent/k8s_psat/" ++ clusterName ++ "/" ++ node.ObjectMeta.UID) = .error err →
      renderPodEntry tbl spec node pod endpointsList trustDomain clusterName clusterDomain
        = .error ("failed to render parent ID: " ++ err))
    ∧ (∀ parentID err, spiffeid.FromPathf trustDomain
        ("/spire/agent/k8s_psat/" ++ clusterName ++ "/" ++ node.ObjectMeta.UID) = .ok parentID →
      renderSPIFFEID tbl spec.SPIFFEIDTemplate
        (newTemplateData node pod trustDomain clusterName clusterDomain) trustDomain
        = .error err →
      renderPodEntry tbl spec node pod endpointsList trustDomain clusterName clusterDomain
        = .error ("failed to render SPIFFE ID: " ++ err))
    ∧ (∀ parentID spiffeID pre t post err, spiffeid.FromPathf trustDomain
        ("/spire/agent/k8s_psat/" ++ clusterName ++ "/" ++ node.ObjectMeta.UID) = .ok parentID →
      renderSPIFFEID tbl spec.SPIFFEIDTemplate
        (newTemplateData node pod trustDomain clusterName clusterDomain) trustDomain
        = .ok spiffeID →
      spec.DNSNameTemplates = pre ++ t :: post →
      (∀ p ∈ pre, ∃ y,
        renderDNSName tbl p (newTemplateData node pod trustDomain clusterName clusterDomain)
          = .ok y) →
      renderDNSName tbl t (newTemplateData node pod trustDomain clusterName clusterDomain)
        = .error err →
      renderPodEntry tbl spec node pod endpointsList trustDomain clusterName clusterDomain
        = .error ("failed to render DNS name: " ++ err))
    ∧ (∀ parentID spiffeID pre t post err, spiffeid.FromPathf trustDomain
        ("/spire/agent/k8s_psat/" ++ clusterName ++ "/" ++ node.ObjectMeta.UID) = .ok parentID →
      renderSPIFFEID tbl spec.SPIFFEIDTemplate
        (newTemplateData node pod trustDomain clusterName clusterDomain) trustDomain
        = .ok spiffeID →
      (∀ d ∈ spec.DNSNameTemplates, ∃ y,
        renderDNSName tbl d (newTemplateData node pod trustDomain clusterName clusterDomain)
          = .ok y) →
      spec.WorkloadSelectorTemplates = pre ++ t :: post →
      (∀ p ∈ pre, ∃ sel,
        renderSelector tbl p (newTemplateData node pod trustDomain clusterName clusterDomain)
          = .ok sel) →
      renderSelector tbl t (newTemplateData node pod trustDomain clusterName clusterDomain)
        = .error err →
      renderPodEntry tbl spec node pod endpointsList trustDomain clusterName clusterDomain
        = .error ("failed to render workload selector: " ++ err)) := by
  refine ⟨?_, ?_, ?_, ?_⟩
  · intro err h1
    exact renderPodEntry_parentID_error tbl spec node pod endpointsList trustDomain clusterName
      clusterDomain err h1
  · intro parentID err h1 h2
    exact renderPodEntry_spiffeID_error tbl spec node pod endpointsList trustDomain clusterName
      clusterDomain parentID err h1 h2
  · intro parentID spiffeID pre t post err h1 h2 hsplit hpre ht
    have h3 := addRenderedDNSNames_first_error tbl _ t post err ht pre
      (addServiceDNSNames [] [] endpointsList clusterDomain).1
      (addServiceDNSNames [] [] endpointsList clusterDomain).2 hpre
    rw [← hsplit] at h3
    exact renderPodEntry_dns_error tbl spec node pod endpointsList trustDomain clusterName
      clusterDomain parentID spiffeID _ h1 h2 h3
  · intro parentID spiffeID pre t post err h1 h2 hdns hsplit hpre ht
    obtain ⟨r, h3⟩ := addRenderedDNSNames_ok_of_all tbl _ spec.DNSNameTemplates
      (addServiceDNSNames [] [] endpointsList clusterDomain).1
      (addServiceDNSNames [] [] endpointsList clusterDomain).2 hdns
    have h4 := renderWorkloadSelectors_first_error tbl _ t post err ht pre
      [{ Type_ := "k8s", Value := "pod-uid:" ++ pod.ObjectMeta.UID }] hpre
    rw [← hsplit] at h4
    exact renderPodEntry_selector_error tbl spec node pod endpointsList trustDomain clusterName
      clusterDomain parentID spiffeID r _ h1 h2 h3 h4

/-- C19, on an input with a trust-domain mismatch and a malformed selector:
the error is the one prefixed `failed to render SPIFFE ID: `; and with the
empty cluster name on top, the error is the parent-ID one. -/
theorem renderPodEntry_first_error_witness :
    renderSelector noTable (tmplText "nocolon")
        (newTemplateData testNode testPod testTrustDomain "test" "cluster.local")
      = .error ("invalid workload selector \"nocolon\": "
          ++ "expected at least one colon separate the type from the value")
    ∧ renderPodEntry noTable mismatchAndBadSelectorSpec testNode testPod testEndpointsList
        testTrustDomain "test" "cluster.local"
      = .error ("failed to render SPIFFE ID: "
          ++ "invalid SPIFFE ID: expected trust domain \"example.org\" but got \"other.org\"")
    ∧ renderPodEntry noTable mismatchAndBadSelectorSpec testNode testPod testEndpointsList
        testTrustDomain "" "cluster.local"
      = .error ("failed to render parent ID: " ++ "path cannot contain empty segments") :=
  ⟨rfl,
    (renderPodEntry_first_error noTable mismatchAndBadSelectorSpec testNode testPod
      testEndpointsList testTrustDomain "test" "cluster.local").2.1
      { td := ⟨"example.org"⟩, path := "/spire/agent/k8s_psat/test/uid" } _ rfl rfl,
    (renderPodEntry_first_error noTable mismatchAndBadSelectorSpec testNode testPod
      testEndpointsList testTrustDomain "" "cluster.local").1 _ rfl⟩

end spireentry

/-! ## The endpoints index of the pod controller -/

namespace controllers

theorem appendPodUIDs_eq :
    ∀ (addresses : List corev1.EndpointAddress) (podUIDs : List String),
      appendPodUIDs podUIDs addresses = podUIDs ++ addresses.filterMap specPodUID
  | [], podUIDs => by simp [appendPodUIDs]
  | address :: rest, podUIDs => by
    cases hr : address.TargetRef with
    | none =>
      simp only [appendPodUIDs, hr, List.filterMap_cons, specPodUID]
      exact appendPodUIDs_eq rest podUIDs
    | some targetRef =>
      by_cases hk : targetRef.Kind = "Pod"
      · simp only [appendPodUIDs, hr, hk, if_true, List.filterMap_cons, specPodUID]
        rw [appendPodUIDs_eq rest (podUIDs ++ [targetRef.UID])]
        simp
      · simp only [appendPodUIDs, hr, hk, if_false, List.filterMap_cons, specPodUID]
        exact appendPodUIDs_eq rest podUIDs

theorem indexSubsets_eq :
    ∀ (subsets : List corev1.EndpointSubset) (podUIDs : List String),
      indexSubsets podUIDs subsets = podUIDs ++ subsets.flatMap
        (fun subset => subset.Addresses.filterMap specPodUID
          ++ subset.NotReadyAddresses.filterMap specPodUID)
  | [], podUIDs => by simp [indexSubsets]
  | subset :: rest, podUIDs => by
    simp only [indexSubsets, List.flatMap_cons]
    rw [indexSubsets_eq rest, appendPodUIDs_eq, appendPodUIDs_eq]
    simp only [List.append_assoc]

/-- C20: for every `Endpoints` object the index function returns, subset by
subset, the UIDs of the subset's `Addresses` and then of its
`NotReadyAddresses` whose `TargetRef` is present and of kind `Pod`; other
addresses contribute nothing and a repeated UID stays repeated, as the object
`sampleEndpoints` shows with the result `a`, `b`, `a`. -/
theorem endpointUIDIndexFunc_eq (endpoints : corev1.Endpoints) :
    endpointUIDIndexFunc endpoints = specEndpointPodUIDs endpoints
    ∧ (∀ uid, uid ∈ endpointUIDIndexFunc endpoints ↔
        ∃ subset ∈ endpoints.Subsets, ∃ address ∈ subset.Addresses ++ subset.NotReadyAddresses,
          ∃ targetRef, address.TargetRef = some targetRef ∧ targetRef.Kind = "Pod"
            ∧ targetRef.UID = uid)
    ∧ endpointUIDIndexFunc sampleEndpoints = ["a", "b", "a"] := by
  have heq : endpointUIDIndexFunc endpoints = specEndpointPodUIDs endpoints := by
    unfold endpointUIDIndexFunc specEndpointPodUIDs
    rw [indexSubsets_eq]
    simp
  refine ⟨heq, ?_, by decide⟩
  intro uid
  rw [heq]
  unfold specEndpointPodUIDs
  simp only [List.mem_flatMap, List.mem_append, List.mem_filterMap]
  constructor
  · rintro ⟨subset, hs, ⟨address, ha, hu⟩ | ⟨address, ha, hu⟩⟩
    all_goals
      refine ⟨subset, hs, address, (by simp [ha]), ?_⟩
      unfold specPodUID at hu
      cases hr : address.TargetRef with
      | none => simp [hr] at hu
      | some targetRef =>
        by_cases hk : targetRef.Kind = "Pod"
        · simp only [hr, hk, if_true, Option.some.injEq] at hu
          exact ⟨targetRef, rfl, hk, hu⟩
        · simp [hr, hk] at hu
  · rintro ⟨subset, hs, address, ha, targetRef, hr, hk, hu⟩
    have hsp : specPodUID address = some uid := by
      unfold specPodUID
      simp [hr, hk, hu]
    rcases ha with ha | ha
    · exact ⟨subset, hs, Or.inl ⟨address, ha, hsp⟩⟩
    · exact ⟨subset, hs, Or.inr ⟨address, ha, hsp⟩⟩

end controllers

/-! ## Reconciling a pod -/

namespace controllers

/-- C21: for every request, `Reconcile` calls `Triggerer.Trigger` exactly once
when the request's namespace is not in `IgnoreNamespaces` and not at all when it
is, and in both cases returns the empty `ctrl.Result` and a nil error. -/
theorem Reconcile_triggers_once (r : PodReconciler) (req : ctrl.Request) :
    (r.IgnoreNamespaces.In req.Namespace = false →
      (r.Reconcile req).2.count Call.Trigger = 1)
    ∧ (r.IgnoreNamespaces.In req.Namespace = true →
      (r.Reconcile req).2.count Call.Trigger = 0)
    ∧ (r.Reconcile req).1 = ({ Requeue := false, RequeueAfter := 0 }, none) := by
  refine ⟨?_, ?_, rfl⟩
  · intro h
    simp [PodReconciler.Reconcile, h]
  · intro h
    simp [PodReconciler.Reconcile, h]

/-- C21, on a reconciler that ignores `kube-system`: one call of `Trigger` for
a pod in `default`, none for a pod in `kube-system`. -/
theorem Reconcile_triggers_once_witness :
    (sampleReconciler.Reconcile { Namespace := "default", Name := "pod" }).2.count Call.Trigger = 1
    ∧ (sampleReconciler.Reconcile { Namespace := "kube-system", Name := "pod" }).2.count
        Call.Trigger = 0 :=
  ⟨(Reconcile_triggers_once sampleReconciler { Namespace := "default", Name := "pod" }).1
      (by decide),
    (Reconcile_triggers_once sampleReconciler { Namespace := "kube-system", Name := "pod" }).2.1
      (by decide)⟩

end controllers
